import Mathlib

/-!
Verification of the `ccpromo-scraper` repository (bank-promo fetch-and-normalize
pipeline) against its natural-language specification.

The Python sources are shallowly embedded:

* JSON values (`requests.Response.json()` results) become the inductive `Json`;
  Python run-time values that flow out of JSON dictionaries become `PyVal`
  (`Option Json`, with `none` standing for Python `None`).
* Exceptions become `Except PyErr`; each `PyErr` constructor names the Python
  exception class it stands for.
* Parsed HTML documents (BeautifulSoup trees) become the inductive `Node`;
  fetched pages are modelled as already-parsed trees because `BeautifulSoup`
  is total (lenient) on every input string.
* The network is an oracle `Net : Req → Option String → NetAnswer` mapping a
  structured request (standing for the URL the code formats) and the
  Authorization header to a response or a connection failure.
* `html_to_text` (BeautifulSoup over an HTML *string* held inside a JSON
  field) is a function parameter `h2t : String → String`, because the code
  only ever flattens those strings to text and never inspects their structure.
* `uuid.uuid4()` and `date.today()` are effectful; the orchestrators take the
  generated id and today's date as explicit parameters.
* `time.sleep` and all logging calls are pure observability effects with no
  influence on data flow; they are not modelled.
-/

/-- Python exception classes that the embedded code can raise. -/
inductive PyErr where
  /-- `RuntimeError("Request failed: …")` raised by the JSON fetch primitives
  and the sitemap reader; the string is the underlying cause. -/
  | runtimeError (cause : String)
  /-- `ValueError` (JSON decode failure, or empty category list). -/
  | valueError (msg : String)
  /-- `AttributeError` (attribute access such as `.get` on a non-dict). -/
  | attributeError
  /-- `TypeError` (e.g. iterating a non-iterable). -/
  | typeError
  /-- pydantic `ValidationError` raised by `BankPromo(...)`. -/
  | validationError
  /-- `NameError` (reading a never-assigned local variable). -/
  | nameError
deriving DecidableEq, Repr

/-- JSON values as returned by `response.json()`.  Numbers are modelled as
integers (every id / page count in scope is integral). -/
inductive Json where
  | null
  | str (s : String)
  | num (n : Int)
  | bool (b : Bool)
  | arr (elems : List Json)
  | obj (fields : List (String × Json))

/-- A Python run-time value originating from a JSON document: `none` is Python
`None` (the image of JSON `null`), `some j` any other JSON value. -/
abbrev PyVal := Option Json

/-- Convert a JSON value to the Python value it deserializes to. -/
def Json.toPy : Json → PyVal
  | .null => none
  | j => some j

/-- Raw key lookup in a JSON object (`k in d` uses presence, not the value). -/
def Json.lookup (j : Json) (k : String) : Option Json :=
  match j with
  | .obj fields => fields.lookup k
  | _ => none

/-- Whether `j` is a dict containing key `k` (Python `k in d`). -/
def Json.hasKey (j : Json) (k : String) : Bool :=
  (j.lookup k).isSome

/-- Python `d.get(k, default)`: `AttributeError` when the receiver is not a
dict, otherwise the deserialized value or the default. -/
def Json.pyGetD (j : Json) (k : String) (default : PyVal) : Except PyErr PyVal :=
  match j with
  | .obj _ =>
    match j.lookup k with
    | some v => .ok v.toPy
    | none => .ok default
  | _ => .error .attributeError

/-- Python `d.get(k)` (default `None`). -/
def Json.pyGet (j : Json) (k : String) : Except PyErr PyVal :=
  j.pyGetD k none

/-- Python truthiness of a JSON-derived value. -/
def pyTruthy : PyVal → Bool
  | none => false
  | some (.str s) => !s.data.isEmpty
  | some (.num n) => n != 0
  | some (.bool b) => b
  | some (.arr l) => !l.isEmpty
  | some (.obj l) => !l.isEmpty
  | some .null => false

/-- Rendering of a JSON value inside a Python f-string.  Lists and dicts would
render as Python literals; no claim exercises those, so a placeholder is used
(documented deviation). -/
def Json.fstr : Json → String
  | .str s => s
  | .num n => toString n
  | .bool true => "True"
  | .bool false => "False"
  | .null => "None"
  | .arr _ => "<list>"
  | .obj _ => "<dict>"

/-- Rendering of a Python value inside an f-string (`f"…{v}…"`). -/
def PyVal.fstr : PyVal → String
  | none => "None"
  | some j => j.fstr

/-- Python iteration `for x in v` over a JSON-derived value: a list yields
its elements, a string its one-character substrings, a dict its keys;
non-iterables raise `TypeError`. -/
def pyIterate : PyVal → Except PyErr (List PyVal)
  | some (.arr l) => .ok (l.map Json.toPy)
  | some (.str s) => .ok (s.toList.map (fun c => some (Json.str c.toString)))
  | some (.obj kvs) => .ok (kvs.map (fun kv => some (Json.str kv.1)))
  | _ => .error .typeError

/-- Python `part.strip()` preceded by the check that `part` is a string:
`AttributeError` otherwise (this is what `[p for p in fields if p.strip()]`
raises on a non-string element). -/
def pyStr (v : PyVal) : Except PyErr String :=
  match v with
  | some (.str s) => .ok s
  | _ => .error .attributeError

/-!  ### String helpers

Kernel-reducible (structurally recursive) replacements for the library
string functions the embedding needs, so that concrete runs evaluate by
`rfl`/`decide`. -/

/-- The whitespace characters Python's `str.strip()` removes (ASCII part). -/
def isPySpace (c : Char) : Bool :=
  c = ' ' || c = '\t' || c = '\n' || c = '\r' || c = '\x0b' || c = '\x0c'

/-- Python `s.strip()`. -/
def pyStrip (s : String) : String :=
  ⟨((s.data.dropWhile isPySpace).reverse.dropWhile isPySpace).reverse⟩

/-- Whether the string is empty (after `pyStrip`, models `if part.strip()`). -/
def strEmpty (s : String) : Bool := s.data.isEmpty

/-- Character-list prefix test. -/
def listStartsWith : List Char → List Char → Bool
  | [], _ => true
  | _ :: _, [] => false
  | c :: cs, d :: ds => c = d && listStartsWith cs ds

/-- Character-list substring test (Python `needle in hay` on strings). -/
def listHasSub : List Char → List Char → Bool
  | needle, [] => listStartsWith needle []
  | needle, c :: rest =>
    listStartsWith needle (c :: rest) || listHasSub needle rest

/-- Python `sep.join(parts)`. -/
def joinSep (sep : String) : List String → String
  | [] => ""
  | [x] => x
  | x :: y :: rest => x ++ sep ++ joinSep sep (y :: rest)

/-!  ### Parsed HTML (BeautifulSoup trees)

`Node.elem` records the pieces of a tag the sources inspect: tag name, the
`id` attribute, the literal `class` attribute string (BeautifulSoup matches a
multi-class search string against the full attribute value), and the `href`
attribute. -/

inductive Node where
  | text (s : String)
  | elem (tag : String) (idAttr : Option String) (classAttr : Option String)
      (hrefAttr : Option String) (children : List Node)

/-- A parsed document: the top-level nodes of the soup. -/
abbrev Doc := List Node

mutual

/-- All descendant strings of a node, in document order (`soup.strings`). -/
def Node.strings : Node → List String
  | .text s => [s]
  | .elem _ _ _ _ cs => Node.stringsList cs

def Node.stringsList : List Node → List String
  | [] => []
  | n :: ns => n.strings ++ Node.stringsList ns

end

/-- `tag.get_text(separator, strip=True)`: strip each descendant string, drop
the whitespace-only ones, join with the separator. -/
def Node.getTextStrip (sep : String) (n : Node) : String :=
  joinSep sep ((n.strings.map pyStrip).filter (fun s => !strEmpty s))

/-- Search condition of a `soup.find(...)` call: optional tag-name filter,
optional exact `class` attribute filter, optional `id` filter. -/
def Node.matches (tag? classAttr? idAttr? : Option String) : Node → Bool
  | .text _ => false
  | .elem t i c _ _ =>
    (match tag? with | some t' => t = t' | none => true) &&
    (match classAttr? with | some c' => c = some c' | none => true) &&
    (match idAttr? with | some i' => i = some i' | none => true)

mutual

/-- First node of a subtree (self included) satisfying the search, pre-order. -/
def Node.findInTree (tag? classAttr? idAttr? : Option String) (n : Node) :
    Option Node :=
  if n.matches tag? classAttr? idAttr? then some n
  else
    match n with
    | .text _ => none
    | .elem _ _ _ _ cs => Node.findInList tag? classAttr? idAttr? cs

def Node.findInList (tag? classAttr? idAttr? : Option String) :
    List Node → Option Node
  | [] => none
  | n :: ns =>
    match Node.findInTree tag? classAttr? idAttr? n with
    | some r => some r
    | none => Node.findInList tag? classAttr? idAttr? ns

end

/-- `soup.find(...)` over a whole document. -/
def Doc.find (d : Doc) (tag? classAttr? idAttr? : Option String) : Option Node :=
  Node.findInList tag? classAttr? idAttr? d

mutual

/-- `href` attributes of all `<a href=…>` nodes in a subtree, self included. -/
def Node.hrefsInTree : Node → List String
  | .text _ => []
  | .elem t _ _ h cs =>
    (if t = "a" then (match h with | some u => [u] | none => []) else []) ++
      Node.hrefsInList cs

def Node.hrefsInList : List Node → List String
  | [] => []
  | n :: ns => n.hrefsInTree ++ Node.hrefsInList ns

end

/-- `tag.find_all('a', href=True)` followed by reading each `href`: searches
the descendants of `tag` (not `tag` itself), document order. -/
def Node.descendantHrefs : Node → List String
  | .text _ => []
  | .elem _ _ _ _ cs => Node.hrefsInList cs

/-!  ### The network oracle -/

/-- Structured stand-ins for the URLs the code formats.

* `tokenReq` — POST `https://www.deals.bdo.com.ph/v4/oauth/token`
* `categoriesReq` — GET `https://api.perxtech.net/v4/categories`
* `itemsReq p s c` — GET `https://api.perxtech.net/v4/catalogs/1/items?page=p&size=s&category_ids=c`
* `campaignReq i` — GET `https://api.perxtech.net/v4/campaigns/i`
* `rewardReq i` — GET `https://api.perxtech.net/v4/rewards/i`
* `urlReq u` — GET of a literal URL `u` (sitemaps and HTML pages). -/
inductive Req where
  | tokenReq
  | categoriesReq
  | itemsReq (page : Nat) (size : Nat) (categoryId : String)
  | campaignReq (id : String)
  | rewardReq (id : String)
  | urlReq (url : String)
deriving DecidableEq, Repr

/-- Response body, exposing the views the code takes of it: `json?` is the
result of `response.json()` when the body parses as JSON; `text` is the
BeautifulSoup parse of `response.text`; `sitemapLocs?` is the list of `<loc>`
texts when `response.content` parses as sitemap XML. -/
structure RespBody where
  json? : Option Json := none
  text : Doc := []
  sitemapLocs? : Option (List String) := none

/-- Outcome of one HTTP request. -/
inductive NetAnswer where
  | resp (status : Nat) (body : RespBody)
  | connFail (cause : String)

/-- The network: answers a request given the Authorization header value sent
with it (`none` for requests that send no Authorization header). -/
abbrev Net := Req → Option String → NetAnswer

/-- `response.raise_for_status()` raises exactly for status codes 400–599. -/
def badStatus (status : Nat) : Bool := 400 ≤ status && status < 600

/-!  ### `scraper_bdo.fetch_json_post` / `fetch_json_get`

Both send a request, raise `RuntimeError("Request failed: …")` (carrying the
underlying cause) on `requests.exceptions.RequestException` — connection
failure, timeout, or `raise_for_status` on a 4xx/5xx status — and then parse
the body as JSON, raising `ValueError` when it does not decode. -/

def fetchJsonCore (net : Net) (req : Req) (auth : Option String) :
    Except PyErr Json :=
  match net req auth with
  | .connFail cause => .error (.runtimeError ("Request failed: " ++ cause))
  | .resp status body =>
    if badStatus status then
      .error (.runtimeError ("Request failed: status " ++ toString status))
    else
      match body.json? with
      | some j => .ok j
      | none => .error (.valueError "Response content is not valid JSON")

/-- `fetch_json_post(url, headers, payload, unique_id, timeout)`; the fixed
payload and constant headers do not vary and are carried by the oracle. -/
def fetch_json_post (net : Net) (req : Req) (auth : Option String) :
    Except PyErr Json :=
  fetchJsonCore net req auth

/-- `fetch_json_get(url, headers, unique_id, timeout)`. -/
def fetch_json_get (net : Net) (req : Req) (auth : Option String) :
    Except PyErr Json :=
  fetchJsonCore net req auth

/-!  ### `utilities.core_utils` -/

/-- `get_sitemap_urls(sitemap_url, unique_id)`: raises `RuntimeError` on
fetch failure, `ValueError` on XML parse failure, else the `<loc>` texts. -/
def get_sitemap_urls (net : Net) (sitemap_url : String) :
    Except PyErr (List String) :=
  match net (.urlReq sitemap_url) none with
  | .connFail cause => .error (.runtimeError ("Request failed: " ++ cause))
  | .resp status body =>
    if badStatus status then
      .error (.runtimeError ("Request failed: status " ++ toString status))
    else
      match body.sitemapLocs? with
      | some locs => .ok locs
      | none => .error (.valueError "XML parsing failed")

/-- `get_html_content(url, unique_id)`: returns the page text on success and
`None` on any `requests.RequestException` — it catches the failure itself and
does NOT raise. -/
def get_html_content (net : Net) (url : String) : Option Doc :=
  match net (.urlReq url) none with
  | .connFail _ => none
  | .resp status body =>
    if badStatus status then none else some body.text

/-!  ### `utilities.classes.BankPromo` (pydantic model) -/

/-- Dates are opaque here (`date.today()` is passed in by the caller). -/
abbrev PyDate := String

structure BankPromo where
  scrape_id : String
  bank_name : String
  promo_url : String
  promo_content : String
  scrape_date : PyDate
deriving DecidableEq, Repr

/-- pydantic `HttpUrl` validation, modelled as an http(s)-scheme check; every
URL the adapters construct or filter is either accepted by both pydantic and
this check (absolute `https://…` URLs) or rejected by both (relative hrefs). -/
def isHttpUrl (s : String) : Bool :=
  listStartsWith "https://".data s.data || listStartsWith "http://".data s.data

/-- The value an adapter hands to `BankPromo(promo_content=…)`: either a
string or the `[]` the extractors return on failure. -/
inductive ExtractOut where
  | txt (s : String)
  | emptyList
deriving DecidableEq, Repr

/-- `BankPromo(scrape_id=…, bank_name=…, promo_url=…, promo_content=…,
scrape_date=…)`: pydantic validation rejects a non-string `promo_content`
(the extractors' `[]`) and a `promo_url` that is not a well-formed http URL. -/
def mkBankPromo (sid bank url : String) (content : ExtractOut) (d : PyDate) :
    Except PyErr BankPromo :=
  if isHttpUrl url then
    match content with
    | .txt s => .ok ⟨sid, bank, url, s, d⟩
    | .emptyList => .error .validationError
  else .error .validationError

/-- `v.get(k, default)` on a Python value: `AttributeError` when `v` is not a
dict (in particular when it is `None`). -/
def PyVal.pyGetD (v : PyVal) (k : String) (default : PyVal) :
    Except PyErr PyVal :=
  match v with
  | some j => j.pyGetD k default
  | none => .error .attributeError

/-- `v.get(k)` on a Python value. -/
def PyVal.pyGet (v : PyVal) (k : String) : Except PyErr PyVal :=
  v.pyGetD k none

/-- Python `v == s` for a string literal `s`: only a `str` compares equal. -/
def pvIsStr (v : PyVal) (s : String) : Bool :=
  match v with
  | some (.str t) => t = s
  | _ => false

/-- Python `k in v` (membership test): key presence for a dict, substring
test for a string, element membership for a list; `TypeError` otherwise. -/
def pyContainsKey (v : PyVal) (k : String) : Except PyErr Bool :=
  match v with
  | some (.obj _) => .ok ((Json.obj (match v with
      | some (.obj kvs) => kvs
      | _ => [])).hasKey k)
  | some (.str s) => .ok (listHasSub k.data s.data)
  | some (.arr l) => .ok (l.any (fun j => match j with
      | .str t => t = k
      | _ => false))
  | _ => .error .typeError

/-- The Python string `""` as a `PyVal` (the usual `.get(k, "")` default). -/
def pvEmpty : PyVal := some (.str "")

/-!  ### `scraper_bdo.get_bdo_bearer_header`

POSTs the fixed credential payload to the token endpoint and builds the
header dict.  Only the Authorization header varies; the other headers are
string constants and are represented by the oracle. -/

structure BearerHeaders where
  authorization : String
deriving DecidableEq, Repr

/-- `get_bdo_bearer_header(unique_id)`.  Note that the source reads the token
with `bearer_token.get('bearer_token')` and interpolates the result into
`f"Bearer {…}"` without checking it: a response dict lacking the field yields
the literal header `"Bearer None"`, not an error. -/
def get_bdo_bearer_header (net : Net) (_uid : String) :
    (Except PyErr BearerHeaders) × List Req :=
  match fetch_json_post net .tokenReq none with
  | .error e => (.error e, [.tokenReq])
  | .ok tok =>
    match PyVal.pyGet (some tok) "bearer_token" with
    | .error e => (.error e, [.tokenReq])
    | .ok v => (.ok ⟨"Bearer " ++ v.fstr⟩, [.tokenReq])

/-!  ### `scraper_bdo.get_bdo_promo_categories` -/

/-- The dict `{"uuid": unique_id, "categories": ids}` the function returns. -/
structure CatResult where
  uuid : String
  categories : List PyVal

/-- `[item["id"] for item in data.get("data", []) if "id" in item]`. -/
def bdoCategoryIds (data : Json) : Except PyErr (List PyVal) := do
  let d ← data.pyGetD "data" (some (.arr []))
  let elems ← pyIterate d
  elems.foldlM (fun acc item => do
    if (← pyContainsKey item "id") then
      match item with
      | some j =>
        match j.lookup "id" with
        | some v => pure (acc ++ [v.toPy])
        | none => pure acc
      | none => pure acc
    else pure acc) []

/-- `get_bdo_promo_categories(unique_id, headers)`: raises `ValueError` when
the extracted id list is empty. -/
def get_bdo_promo_categories (net : Net) (auth : String) (uid : String) :
    (Except PyErr CatResult) × List Req :=
  match fetch_json_get net .categoriesReq (some auth) with
  | .error e => (.error e, [.categoriesReq])
  | .ok data =>
    match bdoCategoryIds data with
    | .error e => (.error e, [.categoriesReq])
    | .ok ids =>
      if ids.isEmpty then
        (.error (.valueError "IDs not found in response JSON"), [.categoriesReq])
      else
        (.ok ⟨uid, ids⟩, [.categoriesReq])

/-!  ### `scraper_bdo.get_bdo_promo_items` -/

/-- One discovered `(item_type, item_id)` pair. -/
abbrev BdoItem := PyVal × PyVal

/-- `[(item.get('item_type'), item.get('item_id')) for item in
data.get('data', []) if item.get('item_type') and item.get('item_id')]`. -/
def bdoPageItems (data : Json) : Except PyErr (List BdoItem) := do
  let d ← data.pyGetD "data" (some (.arr []))
  let elems ← pyIterate d
  elems.foldlM (fun acc item => do
    let t ← item.pyGet "item_type"
    if pyTruthy t then
      let i ← item.pyGet "item_id"
      if pyTruthy i then pure (acc ++ [(t, i)]) else pure acc
    else pure acc) []

/-- `data.get("meta", {}).get("total_pages", 0)` followed by the use of the
result as the bound of `range(1, pages + 1)`.  The `except (KeyError,
TypeError, ValueError)` clause in the source never fires: `.get` raises only
`AttributeError`, which that clause does not catch, so a malformed `meta`
aborts the run while a missing one yields 0 pages. -/
def bdoTotalPages (data : Json) : Except PyErr Int := do
  let meta ← data.pyGetD "meta" (some (.obj []))
  let total ← meta.pyGetD "total_pages" (some (.num 0))
  match total with
  | some (.num n) => pure n
  | some (.bool b) => pure (if b then 1 else 0)
  | _ => .error .typeError

/-- Pages `1 .. pages` (empty when `pages ≤ 0`). -/
def pageRange (pages : Int) : List Nat :=
  (List.range pages.toNat).map (· + 1)

/-- The inner `for page_num in range(1, pages + 1)` loop of
`get_bdo_promo_items` for one category: fetch failures and item-extraction
failures abort the whole run (nothing catches them here). -/
def bdoFetchPages (net : Net) (auth : String) (cid : String) :
    List Nat → List BdoItem → (Except PyErr (List BdoItem)) × List Req
  | [], acc => (.ok acc, [])
  | p :: ps, acc =>
    match fetch_json_get net (.itemsReq p 50 cid) (some auth) with
    | .error e => (.error e, [.itemsReq p 50 cid])
    | .ok data =>
      match bdoPageItems data with
      | .error e => (.error e, [.itemsReq p 50 cid])
      | .ok items =>
        let r := bdoFetchPages net auth cid ps (acc ++ items)
        (r.1, .itemsReq p 50 cid :: r.2)

/-- The outer `for category_id in category_ids` loop of
`get_bdo_promo_items`: the page-1 probe learns `total_pages`, then every page
`1 .. total_pages` is fetched (page 1 a second time). -/
def bdoCategoriesLoop (net : Net) (auth : String) :
    List PyVal → List BdoItem → (Except PyErr (List BdoItem)) × List Req
  | [], acc => (.ok acc, [])
  | cidV :: cids, acc =>
    let c := cidV.fstr
    match fetch_json_get net (.itemsReq 1 50 c) (some auth) with
    | .error e => (.error e, [.itemsReq 1 50 c])
    | .ok data =>
      match bdoTotalPages data with
      | .error e => (.error e, [.itemsReq 1 50 c])
      | .ok pages =>
        let r1 := bdoFetchPages net auth c (pageRange pages) acc
        match r1.1 with
        | .error e => (.error e, .itemsReq 1 50 c :: r1.2)
        | .ok acc' =>
          let r2 := bdoCategoriesLoop net auth cids acc'
          (r2.1, .itemsReq 1 50 c :: (r1.2 ++ r2.2))

/-- `get_bdo_promo_items(unique_id, headers)`: discovery plus the partition
of the accumulated items into `Campaign` and `Reward::Campaign` lists (other
item types are dropped). -/
def get_bdo_promo_items (net : Net) (auth : String) (uid : String) :
    (Except PyErr (List BdoItem × List BdoItem)) × List Req :=
  let rc := get_bdo_promo_categories net auth uid
  match rc.1 with
  | .error e => (.error e, rc.2)
  | .ok cats =>
    let r := bdoCategoriesLoop net auth cats.categories []
    match r.1 with
    | .error e => (.error e, rc.2 ++ r.2)
    | .ok allItems =>
      (.ok (allItems.filter (fun it => pvIsStr it.1 "Campaign"),
            allItems.filter (fun it => pvIsStr it.1 "Reward::Campaign")),
       rc.2 ++ r.2)

/-!  ### `scraper_bdo.get_bdo_campaign_details`

Each field of the produced dict is an `Option PyVal`: the outer `Option`
distinguishes a key that is absent from the dict (never produced by this
function, which always writes every key, but meaningful to the parsers whose
`.get` defaults fire on it) from a key bound to a Python value. -/

structure CampaignEntry where
  id : Option PyVal := none
  name : Option PyVal := none
  headline : Option PyVal := none
  sub_headline : Option PyVal := none
  body_text : Option PyVal := none
  enrolment_page_body_text : Option PyVal := none
  additional_sections : Option PyVal := none
  link : Option PyVal := none

/-- The dict built for one campaign from its detail response (everything
after the `try`/`except` in the loop body, which only guards the fetch; an
exception here aborts the whole run).  The source re-evaluates
`json_data.get("display_properties", {}).get("landing_page", {})` for each
field; the value is the same each time and is computed once here. -/
def bdoCampaignEntry (cid : PyVal) (data : Json) :
    Except PyErr CampaignEntry := do
  let json_data ← data.pyGetD "data" (some (.obj []))
  let idV ← json_data.pyGet "id"
  let nameV ← json_data.pyGet "name"
  let dp ← json_data.pyGetD "display_properties" (some (.obj []))
  let lp ← dp.pyGetD "landing_page" (some (.obj []))
  let headlineV ← lp.pyGet "headline"
  let subHeadlineV ← lp.pyGet "sub_headline"
  let bodyV ← lp.pyGet "body_text"
  let ep ← dp.pyGetD "enrolment_page" (some (.obj []))
  let epBodyV ← ep.pyGet "body_text"
  let sectionsV ← lp.pyGetD "additional_sections" (some (.arr []))
  pure { id := some idV, name := some nameV, headline := some headlineV,
         sub_headline := some subHeadlineV, body_text := some bodyV,
         enrolment_page_body_text := some epBodyV,
         additional_sections := some sectionsV,
         link := some (some (.str
           ("https://www.deals.bdo.com.ph/treat-welcome/" ++ cid.fstr))) }

/-- `get_bdo_campaign_details(unique_id, headers, campaign_list)`: a fetch
failure for one campaign is caught (`except Exception`), logged and the item
skipped; any error while building the output dict is fatal. -/
def get_bdo_campaign_details (net : Net) (auth : String) :
    List BdoItem → List CampaignEntry →
    (Except PyErr (List CampaignEntry)) × List Req
  | [], acc => (.ok acc, [])
  | (_, cid) :: rest, acc =>
    let req := Req.campaignReq cid.fstr
    match fetch_json_get net req (some auth) with
    | .error _ =>
      let r := get_bdo_campaign_details net auth rest acc
      (r.1, req :: r.2)
    | .ok data =>
      match bdoCampaignEntry cid data with
      | .error e => (.error e, [req])
      | .ok entry =>
        let r := get_bdo_campaign_details net auth rest (acc ++ [entry])
        (r.1, req :: r.2)

/-!  ### `scraper_bdo.get_bdo_reward_details` -/

/-- One flattened accordion slot of a reward dict: slot `k` (0-based) stands
for the keys `accordion_{k+1}_title` / `accordion_{k+1}_body`; `none` in a
component means that key is absent from the dict. -/
structure RewardAcc where
  title : Option PyVal := none
  body : Option PyVal := none

/-- A flattened reward dict.  The `accs` list represents the numbered
accordion keys positionally; the flattener writes them gap-free via
`enumerate(accordions, start=1)`. -/
structure RewardEntry where
  id : Option PyVal := none
  name : Option PyVal := none
  description : Option PyVal := none
  accs : List RewardAcc := []

/-- One accordion of the response turned into a slot:
`result[f"accordion_{idx}_title"] = accordion.get("title", "")` and the same
for `"body"`, with `except AttributeError` substituting `""` for both when
`accordion` is not a dict (e.g. `null`). -/
def bdoAccSlot (accordion : PyVal) : RewardAcc :=
  match PyVal.pyGetD accordion "title" pvEmpty,
        PyVal.pyGetD accordion "body" pvEmpty with
  | .ok t, .ok b => ⟨some t, some b⟩
  | _, _ => ⟨some pvEmpty, some pvEmpty⟩

/-- The dict built for one reward from its detail response (after the guarded
fetch).  `accordions = (json_data or {}).get("accordions") or []`. -/
def bdoRewardEntry (data : Json) : Except PyErr RewardEntry := do
  let json_data ← data.pyGetD "data" (some (.obj []))
  let idV ← json_data.pyGet "id"
  let nameV ← json_data.pyGet "name"
  let descV ← json_data.pyGet "description"
  let jd := if pyTruthy json_data then json_data else some (.obj [])
  let accV ← jd.pyGet "accordions"
  let accListV := if pyTruthy accV then accV else some (.arr [])
  let accList ← pyIterate accListV
  pure { id := some idV, name := some nameV, description := some descV,
         accs := accList.map bdoAccSlot }

/-- `get_bdo_reward_details(unique_id, headers, reward_list)`: same
failure/skip policy as the campaign fetcher. -/
def get_bdo_reward_details (net : Net) (auth : String) :
    List BdoItem → List RewardEntry →
    (Except PyErr (List RewardEntry)) × List Req
  | [], acc => (.ok acc, [])
  | (_, rid) :: rest, acc =>
    let req := Req.rewardReq rid.fstr
    match fetch_json_get net req (some auth) with
    | .error _ =>
      let r := get_bdo_reward_details net auth rest acc
      (r.1, req :: r.2)
    | .ok data =>
      match bdoRewardEntry data with
      | .error e => (.error e, [req])
      | .ok entry =>
        let r := get_bdo_reward_details net auth rest (acc ++ [entry])
        (r.1, req :: r.2)

/-!  ### `scraper_bdo` normalizers -/

/-- `utilities.core_utils.html_to_text(v)` =
`BeautifulSoup(v or "", "html.parser").get_text(separator="\n", strip=True)`
applied to a Python value: a falsy value is replaced by `""` first, a truthy
non-string raises `TypeError` inside BeautifulSoup.  The behaviour on actual
strings is the parameter `h2t`. -/
def h2tPy (h2t : String → String) (v : PyVal) : Except PyErr String :=
  if pyTruthy v then
    match v with
    | some (.str s) => .ok (h2t s)
    | _ => .error .typeError
  else .ok (h2t "")

/-- `"\n\n".join([part for part in fields if part.strip()])`: every part must
be a string (`part.strip()` raises `AttributeError` otherwise); parts that
are empty after stripping are dropped; the survivors are joined UNtrimmed. -/
def collectParts : List PyVal → Except PyErr (List String)
  | [] => .ok []
  | p :: ps =>
    match pyStr p with
    | .error e => .error e
    | .ok s =>
      match collectParts ps with
      | .error e => .error e
      | .ok rest => .ok (if strEmpty (pyStrip s) then rest else s :: rest)

def joinParts (parts : List PyVal) : Except PyErr String :=
  match collectParts parts with
  | .error e => .error e
  | .ok kept => .ok (joinSep "\n\n" kept)

/-- The `fields` list of `parse_bdo_campaign_output` for one entry: the five
fixed fields then one flattened `body_text` per dict-shaped additional
section. -/
def campaignFields (h2t : String → String) (e : CampaignEntry) :
    Except PyErr (List PyVal) := do
  let b1 ← h2tPy h2t (e.body_text.getD pvEmpty)
  let b2 ← h2tPy h2t (e.enrolment_page_body_text.getD pvEmpty)
  let base := [e.name.getD pvEmpty, e.headline.getD pvEmpty,
               e.sub_headline.getD pvEmpty,
               some (.str b1), some (.str b2)]
  let secs ← pyIterate (e.additional_sections.getD (some (.arr [])))
  secs.foldlM (fun acc sec =>
    match sec with
    | some (.obj _) => do
      let bodyV ← PyVal.pyGetD sec "body_text" pvEmpty
      let t ← h2tPy h2t bodyV
      pure (acc ++ [some (.str t)])
    | _ => pure acc) base

/-- `parse_bdo_campaign_output(raw_data, unique_id)` evaluated at today's
date: builds one `BankPromo` per entry with the blank-line join as
`promo_content` and the synthesized `…/rewards/{id}` URL. -/
def parse_bdo_campaign_output (h2t : String → String)
    (raw : List CampaignEntry) (uid : String) (today : PyDate) :
    Except PyErr (List BankPromo) :=
  match raw with
  | [] => .ok []
  | e :: es =>
    match campaignFields h2t e with
    | .error err => .error err
    | .ok fields =>
      match joinParts fields with
      | .error err => .error err
      | .ok content =>
        match mkBankPromo uid "bdo"
            ("https://www.deals.bdo.com.ph/rewards/" ++ (e.id.getD none).fstr)
            (.txt content) today with
        | .error err => .error err
        | .ok promo =>
          match parse_bdo_campaign_output h2t es uid today with
          | .error err => .error err
          | .ok rest => .ok (promo :: rest)

/-- The accordion-reading `while f"accordion_{idx}_body" in entry` loop of
`parse_bdo_reward_output`, expressed over the positional slots: it stops at
the first slot whose `body` key is absent, and for each read slot appends
`f"{title}\n{body}".strip()` when `title or body` is truthy. -/
def readAccFields (h2t : String → String) :
    List RewardAcc → Except PyErr (List PyVal)
  | [] => .ok []
  | slot :: rest =>
    match slot.body with
    | none => .ok []
    | some bodyV =>
      match h2tPy h2t bodyV with
      | .error e => .error e
      | .ok bodyTxt =>
        let title := slot.title.getD pvEmpty
        let contrib :=
          if pyTruthy title || !strEmpty bodyTxt then
            [some (.str (pyStrip (title.fstr ++ "\n" ++ bodyTxt)))]
          else []
        match readAccFields h2t rest with
        | .error e => .error e
        | .ok restFields => .ok (contrib ++ restFields)

/-- The `fields` list of `parse_bdo_reward_output` for one entry: name and
flattened description, then the accordion contributions. -/
def rewardFields (h2t : String → String) (e : RewardEntry) :
    Except PyErr (List PyVal) := do
  let desc ← h2tPy h2t (e.description.getD pvEmpty)
  let accFields ← readAccFields h2t e.accs
  pure ([e.name.getD pvEmpty, some (.str desc)] ++ accFields)

/-- `parse_bdo_reward_output(raw_data, unique_id)` evaluated at today's
date. -/
def parse_bdo_reward_output (h2t : String → String)
    (raw : List RewardEntry) (uid : String) (today : PyDate) :
    Except PyErr (List BankPromo) :=
  match raw with
  | [] => .ok []
  | e :: es =>
    match rewardFields h2t e with
    | .error err => .error err
    | .ok fields =>
      match joinParts fields with
      | .error err => .error err
      | .ok content =>
        match mkBankPromo uid "bdo"
            ("https://www.deals.bdo.com.ph/rewards/" ++ (e.id.getD none).fstr)
            (.txt content) today with
        | .error err => .error err
        | .ok promo =>
          match parse_bdo_reward_output h2t es uid today with
          | .error err => .error err
          | .ok rest => .ok (promo :: rest)

/-!  ### `scraper_bdo.scrape_bdo` -/

/-- `scrape_bdo()`: token, discovery, detail fetch, parse, merge.  The
generated `scrape_id` and today's date are explicit arguments; the result
pairs the outcome with the trace of network requests made. -/
def scrape_bdo (net : Net) (h2t : String → String) (sid : String)
    (today : PyDate) : (Except PyErr (List BankPromo)) × List Req :=
  match get_bdo_bearer_header net sid with
  | (.error e, tb) => (.error e, tb)
  | (.ok hdrs, tb) =>
    match get_bdo_promo_items net hdrs.authorization sid with
    | (.error e, ti) => (.error e, tb ++ ti)
    | (.ok (campaigns, rewards), ti) =>
      match get_bdo_campaign_details net hdrs.authorization campaigns [] with
      | (.error e, tc) => (.error e, tb ++ ti ++ tc)
      | (.ok campaignData, tc) =>
        match get_bdo_reward_details net hdrs.authorization rewards [] with
        | (.error e, tr) => (.error e, tb ++ ti ++ tc ++ tr)
        | (.ok rewardData, tr) =>
          match parse_bdo_campaign_output h2t campaignData sid today with
          | .error e => (.error e, tb ++ ti ++ tc ++ tr)
          | .ok campaignPromos =>
            match parse_bdo_reward_output h2t rewardData sid today with
            | .error e => (.error e, tb ++ ti ++ tc ++ tr)
            | .ok rewardPromos =>
              (.ok (campaignPromos ++ rewardPromos), tb ++ ti ++ tc ++ tr)

/-!  ### `scraper_bpi` -/

/-- `get_bpi_content(html_str, unique_id)`: looks for
`<main class="container responsivegrid aem-GridColumn
aem-GridColumn--default--12">`; on success returns its text, and on ANY
exception — `BeautifulSoup(None, …)` when the fetch returned `None`, or
`None.get_text` when the locator matched nothing — it returns the Python
list `[]`. -/
def get_bpi_content (html? : Option Doc) (_uid : String) : ExtractOut :=
  match html? with
  | none => .emptyList
  | some doc =>
    match doc.find (some "main")
        (some "container responsivegrid aem-GridColumn aem-GridColumn--default--12")
        none with
    | none => .emptyList
    | some mainTag => .txt (mainTag.getTextStrip "\n")

/-- The BPI sitemap URL-prefix filter
(`url.startswith("https://www.bpi.com.ph/personal/rewards-and-promotions/")`). -/
def bpiSurviving (urls : List String) : List String :=
  urls.filter (fun u => listStartsWith
    "https://www.bpi.com.ph/personal/rewards-and-promotions/".data u.data)

/-- The body of one iteration of the BPI per-URL loop up to the `try` block:
fetch, extract, construct the `BankPromo` (pydantic may reject the `[]`
content). -/
def bpiTryBody (net : Net) (sid : String) (today : PyDate) (url : String) :
    Except PyErr BankPromo :=
  mkBankPromo sid "bpi" url (get_bpi_content (get_html_content net url) sid)
    today

/-- The BPI per-URL loop.  The loop state carries the current value of the
local variable `promo` (`none` while it has never been assigned).  Each
iteration appends `promo` once inside the `try` block on success and then —
the defect — once more unconditionally after the `try`/`except`: a successful
URL is appended twice, a failing URL re-appends the previous iteration's
record, and a failure on the very first URL raises `NameError` because
`promo` is unbound. -/
def bpiLoop (net : Net) (sid : String) (today : PyDate) :
    List String → Option BankPromo → List BankPromo →
    Except PyErr (List BankPromo)
  | [], _, acc => .ok acc
  | url :: rest, promoVar, acc =>
    match bpiTryBody net sid today url with
    | .ok promo => bpiLoop net sid today rest (some promo)
        (acc ++ [promo, promo])
    | .error _ =>
      match promoVar with
      | some p => bpiLoop net sid today rest (some p) (acc ++ [p])
      | none => .error .nameError

/-- `scrape_bpi()`: sitemap, prefix filter, per-URL loop. -/
def scrape_bpi (net : Net) (sid : String) (today : PyDate) :
    Except PyErr (List BankPromo) :=
  match get_sitemap_urls net "https://www.bpi.com.ph/sitemap.xml" with
  | .error e => .error e
  | .ok urls => bpiLoop net sid today (bpiSurviving urls) none []

/-!  ### `scraper_ew` -/

/-- `get_ew_content(html_str, unique_id)`: same policy as the BPI extractor,
with a class-only locator. -/
def get_ew_content (html? : Option Doc) (_uid : String) : ExtractOut :=
  match html? with
  | none => .emptyList
  | some doc =>
    match doc.find none
        (some "block block-system block-system-main-block block--ewb-theme-content block--system-main")
        none with
    | none => .emptyList
    | some mainTag => .txt (mainTag.getTextStrip "\n")

/-- The EastWest sitemap filter: prefix filter then `[:3]`. -/
def ewSurviving (urls : List String) : List String :=
  (urls.filter (fun u => listStartsWith
    "https://www.eastwestbanker.com/promos/".data u.data)).take 3

/-- The `try` block of one EastWest iteration. -/
def ewTryBody (net : Net) (sid : String) (today : PyDate) (url : String) :
    Except PyErr BankPromo :=
  mkBankPromo sid "eastwest" url (get_ew_content (get_html_content net url) sid)
    today

/-- The EastWest per-URL loop: append on success, skip (log only) on any
exception — no duplicate append here. -/
def ewLoop (net : Net) (sid : String) (today : PyDate) :
    List String → List BankPromo → List BankPromo
  | [], acc => acc
  | url :: rest, acc =>
    match ewTryBody net sid today url with
    | .ok promo => ewLoop net sid today rest (acc ++ [promo])
    | .error _ => ewLoop net sid today rest acc

/-- `scrape_ew()`. -/
def scrape_ew (net : Net) (sid : String) (today : PyDate) :
    Except PyErr (List BankPromo) :=
  match get_sitemap_urls net "https://www.eastwestbanker.com/sitemap.xml" with
  | .error e => .error e
  | .ok urls => .ok (ewLoop net sid today (ewSurviving urls) [])

/-!  ### `scraper_chinabank` -/

/-- `extract_cbank_href(html_str, unique_id)`: hrefs of all `<a href=…>`
inside `<div id="gallery-list">`; any exception (fetch returned `None`, or
the div is missing) yields `[]`. -/
def extract_cbank_href (html? : Option Doc) (_uid : String) : List String :=
  match html? with
  | none => []
  | some doc =>
    match doc.find (some "div") none (some "gallery-list") with
    | none => []
    | some gallery => gallery.descendantHrefs

/-- `extract_cbank_content(html_str, unique_id)`: text of
`<div id="article-detail">`, or the list `[]` on any exception. -/
def extract_cbank_content (html? : Option Doc) (_uid : String) : ExtractOut :=
  match html? with
  | none => .emptyList
  | some doc =>
    match doc.find (some "div") none (some "article-detail") with
    | none => .emptyList
    | some detail => .txt (detail.getTextStrip "\n")

/-- The fixed Chinabank category URLs. -/
def chinabankPromoUrls : List String :=
  ["https://www.chinabank.ph/credit-card-promos-more",
   "https://www.chinabank.ph/credit-card-promos-beauty-wellness",
   "https://www.chinabank.ph/credit-cards-promos-travel",
   "https://www.chinabank.ph/credit-cards-promos-stay",
   "https://www.chinabank.ph/credit-cards-promos-installment",
   "https://www.chinabank.ph/credit-cards-promos-ecom",
   "https://www.chinabank.ph/credit-cards-promos-shop",
   "https://www.chinabank.ph/credit-cards-promos-dine",
   "https://www.chinabank.ph/credit-cards-promos-premium",
   "https://www.chinabank.ph/credit-cards-promos-member-get-member"]

/-- The Chinabank inner per-link loop: append on success, skip on the
(caught) record-construction failure. -/
def cbankLinkLoop (net : Net) (sid : String) (today : PyDate) :
    List String → List BankPromo → List BankPromo
  | [], acc => acc
  | url :: rest, acc =>
    match mkBankPromo sid "chinabank" url
        (extract_cbank_content (get_html_content net url) sid) today with
    | .ok promo => cbankLinkLoop net sid today rest (acc ++ [promo])
    | .error _ => cbankLinkLoop net sid today rest acc

/-- The Chinabank outer per-category loop.  Nothing inside the modelled outer
`try` can raise past the inner handler (fetch failures surface as `None`, the
href extractor swallows its own errors), so the category-level `except`
branch is unreachable here. -/
def cbankCategoryLoop (net : Net) (sid : String) (today : PyDate) :
    List String → List BankPromo → List BankPromo
  | [], acc => acc
  | catUrl :: rest, acc =>
    let hrefs := extract_cbank_href (get_html_content net catUrl) sid
    cbankCategoryLoop net sid today rest (cbankLinkLoop net sid today hrefs acc)

/-- `scrape_chinabank()`. -/
def scrape_chinabank (net : Net) (sid : String) (today : PyDate) :
    List BankPromo :=
  cbankCategoryLoop net sid today chinabankPromoUrls []

/-!  ### Helper lemmas -/

theorem mkBankPromo_ok_fields {sid bank url : String} {c : ExtractOut}
    {d : PyDate} {r : BankPromo} (h : mkBankPromo sid bank url c d = .ok r) :
    r.scrape_id = sid ∧ r.bank_name = bank ∧ r.promo_url = url ∧
      r.scrape_date = d := by
  cases c with
  | txt s =>
    unfold mkBankPromo at h
    split at h
    · injection h with h
      subst h
      exact ⟨rfl, rfl, rfl, rfl⟩
    · exact absurd h (by simp)
  | emptyList =>
    unfold mkBankPromo at h
    split at h <;> exact absurd h (by simp)

theorem bpiLoop_cons (net : Net) (sid : String) (today : PyDate)
    (url : String) (rest : List String) (promoVar : Option BankPromo)
    (acc : List BankPromo) :
    bpiLoop net sid today (url :: rest) promoVar acc =
      match bpiTryBody net sid today url with
      | .ok promo =>
        bpiLoop net sid today rest (some promo) (acc ++ [promo, promo])
      | .error _ =>
        match promoVar with
        | some p => bpiLoop net sid today rest (some p) (acc ++ [p])
        | none => .error .nameError := rfl

theorem ewLoop_cons (net : Net) (sid : String) (today : PyDate)
    (url : String) (rest : List String) (acc : List BankPromo) :
    ewLoop net sid today (url :: rest) acc =
      match ewTryBody net sid today url with
      | .ok promo => ewLoop net sid today rest (acc ++ [promo])
      | .error _ => ewLoop net sid today rest acc := rfl

theorem cbankLinkLoop_cons (net : Net) (sid : String) (today : PyDate)
    (url : String) (rest : List String) (acc : List BankPromo) :
    cbankLinkLoop net sid today (url :: rest) acc =
      match mkBankPromo sid "chinabank" url
          (extract_cbank_content (get_html_content net url) sid) today with
      | .ok promo => cbankLinkLoop net sid today rest (acc ++ [promo])
      | .error _ => cbankLinkLoop net sid today rest acc := rfl

theorem bpiLoop_scrape_id (net : Net) (sid : String) (today : PyDate) :
    ∀ (urls : List String) (promoVar : Option BankPromo)
      (acc l : List BankPromo),
      (∀ r ∈ acc, r.scrape_id = sid) →
      (∀ p, promoVar = some p → p.scrape_id = sid) →
      bpiLoop net sid today urls promoVar acc = .ok l →
      ∀ r ∈ l, r.scrape_id = sid := by
  intro urls
  induction urls with
  | nil =>
    intro promoVar acc l hacc _ h
    injection h with h
    subst h
    exact hacc
  | cons url rest ih =>
    intro promoVar acc l hacc hvar h
    rw [bpiLoop_cons] at h
    cases htry : bpiTryBody net sid today url with
    | ok promo =>
      rw [htry] at h
      have hp : promo.scrape_id = sid := by
        unfold bpiTryBody at htry
        exact (mkBankPromo_ok_fields htry).1
      refine ih (some promo) _ l ?_ ?_ h
      · intro r hr
        rcases List.mem_append.1 hr with h1 | h2
        · exact hacc r h1
        · simp only [List.mem_cons, List.not_mem_nil, or_false] at h2
          rcases h2 with h2 | h2 <;> (subst h2; exact hp)
      · intro p hpv
        injection hpv with hpv
        subst hpv
        exact hp
    | error e =>
      rw [htry] at h
      cases promoVar with
      | some p =>
        refine ih (some p) _ l ?_ ?_ h
        · intro r hr
          rcases List.mem_append.1 hr with h1 | h2
          · exact hacc r h1
          · simp only [List.mem_cons, List.not_mem_nil, or_false] at h2
            subst h2
            exact hvar _ rfl
        · exact hvar
      | none => exact absurd h (by simp)

theorem ewLoop_scrape_id (net : Net) (sid : String) (today : PyDate) :
    ∀ (urls : List String) (acc : List BankPromo),
      (∀ r ∈ acc, r.scrape_id = sid) →
      ∀ r ∈ ewLoop net sid today urls acc, r.scrape_id = sid := by
  intro urls
  induction urls with
  | nil => intro acc hacc; exact hacc
  | cons url rest ih =>
    intro acc hacc
    rw [ewLoop_cons]
    cases htry : ewTryBody net sid today url with
    | ok promo =>
      refine ih _ ?_
      intro r hr
      rcases List.mem_append.1 hr with h1 | h2
      · exact hacc r h1
      · simp only [List.mem_cons, List.not_mem_nil, or_false] at h2
        subst h2
        unfold ewTryBody at htry
        exact (mkBankPromo_ok_fields htry).1
    | error e => exact ih _ hacc

theorem cbankLinkLoop_scrape_id (net : Net) (sid : String) (today : PyDate) :
    ∀ (urls : List String) (acc : List BankPromo),
      (∀ r ∈ acc, r.scrape_id = sid) →
      ∀ r ∈ cbankLinkLoop net sid today urls acc, r.scrape_id = sid := by
  intro urls
  induction urls with
  | nil => intro acc hacc; exact hacc
  | cons url rest ih =>
    intro acc hacc
    rw [cbankLinkLoop_cons]
    cases htry : mkBankPromo sid "chinabank" url
        (extract_cbank_content (get_html_content net url) sid) today with
    | ok promo =>
      refine ih _ ?_
      intro r hr
      rcases List.mem_append.1 hr with h1 | h2
      · exact hacc r h1
      · simp only [List.mem_cons, List.not_mem_nil, or_false] at h2
        subst h2
        exact (mkBankPromo_ok_fields htry).1
    | error e => exact ih _ hacc

theorem cbankCategoryLoop_scrape_id (net : Net) (sid : String)
    (today : PyDate) :
    ∀ (cats : List String) (acc : List BankPromo),
      (∀ r ∈ acc, r.scrape_id = sid) →
      ∀ r ∈ cbankCategoryLoop net sid today cats acc, r.scrape_id = sid := by
  intro cats
  induction cats with
  | nil => intro acc hacc; exact hacc
  | cons catUrl rest ih =>
    intro acc hacc
    exact ih _ (cbankLinkLoop_scrape_id net sid today _ _ hacc)

theorem parse_campaign_cons (h2t : String → String) (uid : String)
    (today : PyDate) (e : CampaignEntry) (es : List CampaignEntry) :
    parse_bdo_campaign_output h2t (e :: es) uid today =
      match campaignFields h2t e with
      | .error err => .error err
      | .ok fields =>
        match joinParts fields with
        | .error err => .error err
        | .ok content =>
          match mkBankPromo uid "bdo"
              ("https://www.deals.bdo.com.ph/rewards/" ++ (e.id.getD none).fstr)
              (.txt content) today with
          | .error err => .error err
          | .ok promo =>
            match parse_bdo_campaign_output h2t es uid today with
            | .error err => .error err
            | .ok rest => .ok (promo :: rest) := rfl

theorem parse_reward_cons (h2t : String → String) (uid : String)
    (today : PyDate) (e : RewardEntry) (es : List RewardEntry) :
    parse_bdo_reward_output h2t (e :: es) uid today =
      match rewardFields h2t e with
      | .error err => .error err
      | .ok fields =>
        match joinParts fields with
        | .error err => .error err
        | .ok content =>
          match mkBankPromo uid "bdo"
              ("https://www.deals.bdo.com.ph/rewards/" ++ (e.id.getD none).fstr)
              (.txt content) today with
          | .error err => .error err
          | .ok promo =>
            match parse_bdo_reward_output h2t es uid today with
            | .error err => .error err
            | .ok rest => .ok (promo :: rest) := rfl

theorem parse_campaign_scrape_id (h2t : String → String) (uid : String)
    (today : PyDate) :
    ∀ (raw : List CampaignEntry) (l : List BankPromo),
      parse_bdo_campaign_output h2t raw uid today = .ok l →
      ∀ r ∈ l, r.scrape_id = uid := by
  intro raw
  induction raw with
  | nil =>
    intro l h
    injection h with h
    subst h
    simp
  | cons e es ih =>
    intro l h
    rw [parse_campaign_cons] at h
    split at h
    · exact absurd h (by simp)
    · split at h
      · exact absurd h (by simp)
      · split at h
        · exact absurd h (by simp)
        · rename_i promo hmk
          split at h
          · exact absurd h (by simp)
          · rename_i rest hrest
            injection h with h
            subst h
            intro r hr
            rcases List.mem_cons.1 hr with h5 | h5
            · subst h5
              exact (mkBankPromo_ok_fields hmk).1
            · exact ih rest hrest r h5

theorem parse_reward_scrape_id (h2t : String → String) (uid : String)
    (today : PyDate) :
    ∀ (raw : List RewardEntry) (l : List BankPromo),
      parse_bdo_reward_output h2t raw uid today = .ok l →
      ∀ r ∈ l, r.scrape_id = uid := by
  intro raw
  induction raw with
  | nil =>
    intro l h
    injection h with h
    subst h
    simp
  | cons e es ih =>
    intro l h
    rw [parse_reward_cons] at h
    split at h
    · exact absurd h (by simp)
    · split at h
      · exact absurd h (by simp)
      · split at h
        · exact absurd h (by simp)
        · rename_i promo hmk
          split at h
          · exact absurd h (by simp)
          · rename_i rest hrest
            injection h with h
            subst h
            intro r hr
            rcases List.mem_cons.1 hr with h5 | h5
            · subst h5
              exact (mkBankPromo_ok_fields hmk).1
            · exact ih rest hrest r h5

theorem scrape_bdo_scrape_id (net : Net) (h2t : String → String)
    (sid : String) (today : PyDate) (l : List BankPromo)
    (h : (scrape_bdo net h2t sid today).1 = .ok l) :
    ∀ r ∈ l, r.scrape_id = sid := by
  unfold scrape_bdo at h
  split at h
  · simp at h
  · split at h
    · simp at h
    · split at h
      · simp at h
      · split at h
        · simp at h
        · split at h
          · simp at h
          · split at h
            · simp at h
            · rename_i hpc _ _ hpr
              simp only at h
              injection h with h
              subst h
              intro r hr
              rcases List.mem_append.1 hr with h5 | h5
              · exact parse_campaign_scrape_id h2t sid today _ _ hpc r h5
              · exact parse_reward_scrape_id h2t sid today _ _ hpr r h5

/-!  ### Shared concrete fixtures for witnesses and counterexamples -/

/-- The BPI content anchor class string. -/
def bpiMainClass : String :=
  "container responsivegrid aem-GridColumn aem-GridColumn--default--12"

/-- The EastWest content anchor class string. -/
def ewMainClass : String :=
  "block block-system block-system-main-block block--ewb-theme-content block--system-main"

def wBpiDoc : Doc := [Node.elem "main" none (some bpiMainClass) none
  [Node.text "bpi promo"]]

def wEwDoc : Doc := [Node.elem "div" none (some ewMainClass) none
  [Node.text "ew promo"]]

def wCbCatDoc : Doc := [Node.elem "div" (some "gallery-list") none none
  [Node.elem "a" none none (some "https://www.chinabank.ph/det") []]]

def wCbDetDoc : Doc := [Node.elem "div" (some "article-detail") none none
  [Node.text "cb promo"]]

/-- A small happy-path network oracle exercising every adapter: one BDO
category with one page holding one campaign and one reward (whose accordions
include a `null` entry), one BPI and one EastWest promo page, and one
Chinabank category with one promo link. -/
def wNet : Net := fun req _ =>
  match req with
  | .tokenReq => .resp 200 { json? := some (.obj [("bearer_token", .str "tok")]) }
  | .categoriesReq => .resp 200 { json? := some (.obj
      [("data", .arr [.obj [("id", .num 7)]])]) }
  | .itemsReq 1 50 "7" => .resp 200 { json? := some (.obj
      [("meta", .obj [("total_pages", .num 1)]),
       ("data", .arr [.obj [("item_type", .str "Campaign"), ("item_id", .num 3)],
                      .obj [("item_type", .str "Reward::Campaign"), ("item_id", .num 9)]])]) }
  | .campaignReq "3" => .resp 200 { json? := some (.obj [("data", .obj
      [("id", .num 3), ("name", .str "N"),
       ("display_properties", .obj
         [("landing_page", .obj
            [("headline", .str "H"), ("sub_headline", .str "S"),
             ("body_text", .str "B"), ("additional_sections", .arr [])]),
          ("enrolment_page", .obj [("body_text", .str "E")])])])]) }
  | .rewardReq "9" => .resp 200 { json? := some (.obj [("data", .obj
      [("id", .num 9), ("name", .str "R"), ("description", .str "D"),
       ("accordions", .arr [.obj [("title", .str "T"), ("body", .str "AB")],
                            .null])])]) }
  | .urlReq "https://www.bpi.com.ph/sitemap.xml" => .resp 200
      { sitemapLocs? := some ["https://www.bpi.com.ph/personal/rewards-and-promotions/a"] }
  | .urlReq "https://www.bpi.com.ph/personal/rewards-and-promotions/a" =>
      .resp 200 { text := wBpiDoc }
  | .urlReq "https://www.eastwestbanker.com/sitemap.xml" => .resp 200
      { sitemapLocs? := some ["https://www.eastwestbanker.com/promos/p"] }
  | .urlReq "https://www.eastwestbanker.com/promos/p" => .resp 200 { text := wEwDoc }
  | .urlReq "https://www.chinabank.ph/credit-card-promos-more" =>
      .resp 200 { text := wCbCatDoc }
  | .urlReq "https://www.chinabank.ph/det" => .resp 200 { text := wCbDetDoc }
  | _ => .connFail "x"

/-!  ### Claim C2 -/

/-- C2: for every orchestrator invocation (`scrape_bdo`, `scrape_bpi`,
`scrape_ew`, `scrape_chinabank`), every record in the returned list carries
the run identifier generated at the start of that invocation (here the
explicit `sid` argument standing for the freshly generated `uuid4`); no
record carries a different or stale identifier. -/
theorem C2_run_id_uniform (net : Net) (h2t : String → String) (sid : String)
    (today : PyDate) :
    (∀ l, (scrape_bdo net h2t sid today).1 = .ok l →
      ∀ r ∈ l, r.scrape_id = sid) ∧
    (∀ l, scrape_bpi net sid today = .ok l → ∀ r ∈ l, r.scrape_id = sid) ∧
    (∀ l, scrape_ew net sid today = .ok l → ∀ r ∈ l, r.scrape_id = sid) ∧
    (∀ r ∈ scrape_chinabank net sid today, r.scrape_id = sid) := by
  refine ⟨fun l h => scrape_bdo_scrape_id net h2t sid today l h, ?_, ?_, ?_⟩
  · intro l h
    unfold scrape_bpi at h
    split at h
    · simp at h
    · exact bpiLoop_scrape_id net sid today _ none [] l (by simp)
        (fun p hp => by simp at hp) h
  · intro l h
    unfold scrape_ew at h
    split at h
    · simp at h
    · injection h with h
      subst h
      exact ewLoop_scrape_id net sid today _ [] (by simp)
  · exact cbankCategoryLoop_scrape_id net sid today _ [] (by simp)

def C2bdoExpected : List BankPromo :=
  [⟨"sid", "bdo", "https://www.deals.bdo.com.ph/rewards/3",
    "N\n\nH\n\nS\n\nB\n\nE", "d"⟩,
   ⟨"sid", "bdo", "https://www.deals.bdo.com.ph/rewards/9",
    "R\n\nD\n\nT\nAB", "d"⟩]

def C2bpiExpected : List BankPromo :=
  [⟨"sid", "bpi", "https://www.bpi.com.ph/personal/rewards-and-promotions/a",
    "bpi promo", "d"⟩,
   ⟨"sid", "bpi", "https://www.bpi.com.ph/personal/rewards-and-promotions/a",
    "bpi promo", "d"⟩]

def C2ewExpected : List BankPromo :=
  [⟨"sid", "eastwest", "https://www.eastwestbanker.com/promos/p",
    "ew promo", "d"⟩]

set_option maxRecDepth 16384 in
/-- Witness for C2: on the concrete oracle `wNet` every orchestrator returns
a non-empty list and the theorem applies, giving `scrape_id = "sid"`
everywhere. -/
theorem C2_run_id_uniform_witness :
    ((scrape_bdo wNet (fun s => s) "sid" "d").1 = .ok C2bdoExpected ∧
      ∀ r ∈ C2bdoExpected, r.scrape_id = "sid") ∧
    (scrape_bpi wNet "sid" "d" = .ok C2bpiExpected ∧
      ∀ r ∈ C2bpiExpected, r.scrape_id = "sid") ∧
    (scrape_ew wNet "sid" "d" = .ok C2ewExpected ∧
      ∀ r ∈ C2ewExpected, r.scrape_id = "sid") ∧
    (∀ r ∈ scrape_chinabank wNet "sid" "d", r.scrape_id = "sid") :=
  ⟨⟨rfl, (C2_run_id_uniform wNet (fun s => s) "sid" "d").1 C2bdoExpected rfl⟩,
   ⟨rfl, (C2_run_id_uniform wNet (fun s => s) "sid" "d").2.1 C2bpiExpected rfl⟩,
   ⟨rfl, (C2_run_id_uniform wNet (fun s => s) "sid" "d").2.2.1 C2ewExpected rfl⟩,
   (C2_run_id_uniform wNet (fun s => s) "sid" "d").2.2.2⟩

/-!  ### Claim C1 -/

/-- Two surviving BPI promo URLs; the first scrapes fine, the second's page
fetch fails at the transport level. -/
def c1Urls : List String :=
  ["https://www.bpi.com.ph/personal/rewards-and-promotions/a",
   "https://www.bpi.com.ph/personal/rewards-and-promotions/b"]

def c1Net : Net := fun req _ =>
  match req with
  | .urlReq "https://www.bpi.com.ph/sitemap.xml" =>
      .resp 200 { sitemapLocs? := some c1Urls }
  | .urlReq "https://www.bpi.com.ph/personal/rewards-and-promotions/a" =>
      .resp 200 { text := wBpiDoc }
  | .campaignReq "3" => .resp 200 { json? := some (.obj [("data", .obj
      [("id", .num 3), ("name", .str "N")])]) }
  | _ => .connFail "boom"

def c1Promo : BankPromo :=
  ⟨"s", "bpi", "https://www.bpi.com.ph/personal/rewards-and-promotions/a",
   "bpi promo", "d"⟩

/-- The campaign dict produced for item 3 by the BDO detail fetcher. -/
def c1Entry3 : CampaignEntry :=
  { id := some (some (.num 3)), name := some (some (.str "N")),
    headline := some none, sub_headline := some none, body_text := some none,
    enrolment_page_body_text := some none,
    additional_sections := some (some (.arr [])),
    link := some (some (.str "https://www.deals.bdo.com.ph/treat-welcome/3")) }

set_option maxRecDepth 16384 in
/-- C1: the claim that EVERY adapter catches a per-item error, skips the
item, and returns total−1 records is the documented policy (spec §7) but the
BPI adapter's code violates it.  The BDO detail fetcher does behave as
claimed — here one of two campaign fetches fails and exactly one entry comes
back — but `scrape_bpi`, at the concrete run `c1Net` where the second of two
surviving URLs raises a transport failure, returns THREE records (the first
URL's record appended twice by the duplicate-append defect, then re-appended
by the failing iteration) instead of the claimed 2−1 = 1. -/
theorem C1_bpi_transport_error_not_skipped :
    (get_bdo_campaign_details c1Net "auth"
        [(some (.str "Campaign"), some (.num 3)),
         (some (.str "Campaign"), some (.num 5))] [] =
      (.ok [c1Entry3], [.campaignReq "3", .campaignReq "5"])) ∧
    (bpiSurviving c1Urls).length = 2 ∧
    scrape_bpi c1Net "s" "d" = .ok [c1Promo, c1Promo, c1Promo] ∧
    [c1Promo, c1Promo, c1Promo].length ≠ 2 - 1 :=
  ⟨rfl, rfl, rfl, by decide⟩

/-!  ### Claim C10 -/

/-- C10: in the BPI per-URL loop a second, unconditional append runs after
the `try`/`except` on every iteration.  When processing of a surviving URL
raises: with no earlier successful iteration (`promo` never assigned) the
whole invocation fails with `NameError`; with an earlier record `p` the loop
re-appends `p` and continues.  So a per-item failure never produces a clean
skip of exactly that item. -/
theorem C10_bpi_double_append (net : Net) (sid : String) (today : PyDate)
    (url : String) (rest us : List String) (acc : List BankPromo) (e : PyErr)
    (hfail : bpiTryBody net sid today url = .error e) :
    (bpiLoop net sid today (url :: rest) none acc = .error .nameError) ∧
    (∀ p, bpiLoop net sid today (url :: rest) (some p) acc =
      bpiLoop net sid today rest (some p) (acc ++ [p])) ∧
    (get_sitemap_urls net "https://www.bpi.com.ph/sitemap.xml" = .ok us →
      bpiSurviving us = url :: rest →
      scrape_bpi net sid today = .error .nameError) := by
  refine ⟨?_, ?_, ?_⟩
  · rw [bpiLoop_cons, hfail]
  · intro p
    rw [bpiLoop_cons, hfail]
  · intro hs hsurv
    unfold scrape_bpi
    rw [hs]
    dsimp only
    rw [hsurv, bpiLoop_cons, hfail]

/-- A network where the very first (and only) surviving BPI URL fails. -/
def c10Net : Net := fun req _ =>
  match req with
  | .urlReq "https://www.bpi.com.ph/sitemap.xml" =>
      .resp 200
        { sitemapLocs? :=
            some ["https://www.bpi.com.ph/personal/rewards-and-promotions/z"] }
  | _ => .connFail "down"

def c10Prev : BankPromo := ⟨"s", "bpi", "https://p", "c", "d"⟩

set_option maxRecDepth 16384 in
/-- Witness for C10 at `c10Net`: the failing first URL aborts the run with
`NameError`, and with a previous record the loop re-appends it. -/
theorem C10_bpi_double_append_witness :
    bpiTryBody c10Net "s" "d"
        "https://www.bpi.com.ph/personal/rewards-and-promotions/z" =
      .error .validationError ∧
    bpiLoop c10Net "s" "d"
        ["https://www.bpi.com.ph/personal/rewards-and-promotions/z"] none [] =
      .error .nameError ∧
    bpiLoop c10Net "s" "d"
        ["https://www.bpi.com.ph/personal/rewards-and-promotions/z"]
        (some c10Prev) [] =
      bpiLoop c10Net "s" "d" [] (some c10Prev) ([] ++ [c10Prev]) ∧
    scrape_bpi c10Net "s" "d" = .error .nameError := by
  have h := C10_bpi_double_append c10Net "s" "d"
    "https://www.bpi.com.ph/personal/rewards-and-promotions/z" []
    ["https://www.bpi.com.ph/personal/rewards-and-promotions/z"] []
    .validationError rfl
  exact ⟨rfl, h.1, h.2.1 c10Prev, h.2.2 rfl rfl⟩

/-!  ### Claim C6 -/

def c6Net : Net := fun req _ =>
  match req with
  | .urlReq "u" => .connFail "boom"
  | .urlReq "w" => .resp 503 {}
  | .tokenReq => .resp 304 { json? := some (.obj []) }
  | .categoriesReq => .resp 500 {}
  | .campaignReq "1" => .connFail "conn reset"
  | _ => .connFail "x"

/-- Counterexample to C6 as stated.  The claim covers "every HTTP fetch
primitive", including the raw-text/HTML fetch, and says a failure reaches
the caller as a transport error, and that any status outside 2xx is such a
failure.  At `c6Net`: the raw fetch `get_html_content` swallows a connection
failure and hands the caller `none` — no error and no carried cause — and
the JSON GET of a 304 response (outside 2xx but below `raise_for_status`'s
400 threshold) succeeds rather than failing. -/
theorem C6_counterexample :
    get_html_content c6Net "u" = none ∧
    fetch_json_get c6Net .tokenReq none = .ok (.obj []) ∧
    (300 ≤ 304 ∧ badStatus 304 = false) :=
  ⟨rfl, rfl, by decide, rfl⟩

/-- C6 amended: the JSON GET and POST primitives turn a connection failure
or a 4xx/5xx status into a `RuntimeError` carrying the cause (3xx statuses
are not errors at this layer); the raw-text/HTML fetch instead catches those
same failures itself and returns `None`, so its caller receives no error and
no cause. -/
theorem C6_amended_transport_errors (net : Net) (req : Req)
    (auth : Option String) (url cause : String) (status : Nat)
    (body : RespBody) :
    (net req auth = .connFail cause →
      fetch_json_get net req auth =
        .error (.runtimeError ("Request failed: " ++ cause)) ∧
      fetch_json_post net req auth =
        .error (.runtimeError ("Request failed: " ++ cause))) ∧
    (net req auth = .resp status body → badStatus status = true →
      fetch_json_get net req auth =
        .error (.runtimeError ("Request failed: status " ++ toString status)) ∧
      fetch_json_post net req auth =
        .error (.runtimeError ("Request failed: status " ++ toString status))) ∧
    (net (.urlReq url) none = .connFail cause →
      get_html_content net url = none) ∧
    (net (.urlReq url) none = .resp status body → badStatus status = true →
      get_html_content net url = none) := by
  refine ⟨?_, ?_, ?_, ?_⟩
  · intro h
    constructor <;>
      simp [fetch_json_get, fetch_json_post, fetchJsonCore, h]
  · intro h hbad
    constructor <;>
      simp [fetch_json_get, fetch_json_post, fetchJsonCore, h, hbad]
  · intro h
    simp [get_html_content, h]
  · intro h hbad
    simp [get_html_content, h, hbad]

/-- Witness for the amended C6 at `c6Net`: a connection failure and a 500
status on JSON GETs, and both shapes on the raw HTML fetch. -/
theorem C6_amended_transport_errors_witness :
    fetch_json_get c6Net (.campaignReq "1") none =
      .error (.runtimeError ("Request failed: " ++ "conn reset")) ∧
    fetch_json_get c6Net .categoriesReq none =
      .error (.runtimeError ("Request failed: status " ++ toString 500)) ∧
    get_html_content c6Net "u" = none ∧
    get_html_content c6Net "w" = none :=
  ⟨((C6_amended_transport_errors c6Net (.campaignReq "1") none "u"
      "conn reset" 500 {}).1 rfl).1,
   ((C6_amended_transport_errors c6Net .categoriesReq none "u"
      "conn reset" 500 {}).2.1 rfl (by decide)).1,
   (C6_amended_transport_errors c6Net .tokenReq none "u"
      "boom" 500 {}).2.2.1 rfl,
   (C6_amended_transport_errors c6Net .tokenReq none "w"
      "boom" 503 {}).2.2.2 rfl (by decide)⟩

/-!  ### Claim C7 -/

/-- A document in which none of the three locators matches. -/
def c7Doc : Doc := [Node.elem "div" none none none [Node.text "hello"]]

/-- Counterexample to C7 as stated: when the locator matches nothing, the
extractors do NOT fail with an extraction error — they return the Python
list `[]` as an ordinary value (their except-blocks swallow the internal
`AttributeError`).  The error the adapters then catch arises only later,
when `BankPromo` rejects the non-string content. -/
theorem C7_counterexample :
    get_bpi_content (some c7Doc) "s" = .emptyList ∧
    get_ew_content (some c7Doc) "s" = .emptyList ∧
    extract_cbank_content (some c7Doc) "s" = .emptyList ∧
    mkBankPromo "s" "bpi" "https://x" .emptyList "d" =
      .error .validationError :=
  ⟨rfl, rfl, rfl, rfl⟩

/-- C7 amended: when the locator matches no element, each extractor returns
the empty list (a non-error value) instead of raising; an adapter that feeds
that value to `BankPromo` gets a `ValidationError` there, which its per-item
handler catches, so the item is skipped downstream of the extractor. -/
theorem C7_amended_extractors_return_empty (doc : Doc) (sid : String) :
    (doc.find (some "main") (some bpiMainClass) none = none →
      get_bpi_content (some doc) sid = .emptyList) ∧
    (doc.find none (some ewMainClass) none = none →
      get_ew_content (some doc) sid = .emptyList) ∧
    (doc.find (some "div") none (some "article-detail") = none →
      extract_cbank_content (some doc) sid = .emptyList) ∧
    (∀ (sid2 bank url : String) (d : PyDate), isHttpUrl url = true →
      mkBankPromo sid2 bank url .emptyList d = .error .validationError) := by
  refine ⟨?_, ?_, ?_, ?_⟩
  · intro h
    simp [get_bpi_content, bpiMainClass] at h ⊢
    rw [h]
  · intro h
    simp [get_ew_content, ewMainClass] at h ⊢
    rw [h]
  · intro h
    simp [extract_cbank_content] at h ⊢
    rw [h]
  · intro sid2 bank url d hurl
    simp [mkBankPromo, hurl]

/-- Witness for the amended C7 at `c7Doc`. -/
theorem C7_amended_extractors_return_empty_witness :
    get_bpi_content (some c7Doc) "w" = .emptyList ∧
    get_ew_content (some c7Doc) "w" = .emptyList ∧
    extract_cbank_content (some c7Doc) "w" = .emptyList ∧
    mkBankPromo "w" "eastwest" "https://y" .emptyList "d" =
      .error .validationError :=
  ⟨(C7_amended_extractors_return_empty c7Doc "w").1 rfl,
   (C7_amended_extractors_return_empty c7Doc "w").2.1 rfl,
   (C7_amended_extractors_return_empty c7Doc "w").2.2.1 rfl,
   (C7_amended_extractors_return_empty c7Doc "w").2.2.2 "w" "eastwest"
     "https://y" "d" (by decide)⟩

/-!  ### Claim C5 -/

/-- A token endpoint whose (well-formed JSON) response lacks the
`bearer_token` field, and a catalog endpoint that answers 401. -/
def c5Net : Net := fun req _ =>
  match req with
  | .tokenReq => .resp 200 { json? := some (.obj [("foo", .str "x")]) }
  | .categoriesReq => .resp 401 {}
  | _ => .connFail "x"

/-- Counterexample to C5 as stated: with the bearer-token field absent,
token acquisition does NOT fail — `get_bdo_bearer_header` returns headers
whose Authorization is the literal string `"Bearer None"` — and the run
proceeds to attempt the catalog request (`categoriesReq` appears in the
trace) before aborting on its 401, with a transport-level `RuntimeError`
rather than an authentication error. -/
theorem C5_counterexample :
    get_bdo_bearer_header c5Net "s" = (.ok ⟨"Bearer None"⟩, [.tokenReq]) ∧
    scrape_bdo c5Net (fun s => s) "s" "d" =
      (.error (.runtimeError "Request failed: status 401"),
       [.tokenReq, .categoriesReq]) :=
  ⟨rfl, rfl⟩

/-- C5 amended: a token response that parses as JSON but lacks the
`bearer_token` field does not abort token acquisition; the adapter builds
`Authorization: Bearer None` headers and proceeds to the catalog request.
The run still produces no records, but only because the subsequent
authenticated request fails (here with a 4xx/5xx status turned into a
`RuntimeError`), after the catalog request was attempted. -/
theorem C5_amended_bearer_none_proceeds
    (net : Net) (h2t : String → String) (sid : String) (today : PyDate)
    (status : Nat) (body : RespBody) (kvs : List (String × Json))
    (st2 : Nat) (body2 : RespBody)
    (htok : net .tokenReq none = .resp status body)
    (hok : badStatus status = false)
    (hjson : body.json? = some (.obj kvs))
    (hmiss : (Json.obj kvs).hasKey "bearer_token" = false) :
    get_bdo_bearer_header net sid = (.ok ⟨"Bearer None"⟩, [.tokenReq]) ∧
    (net .categoriesReq (some "Bearer None") = .resp st2 body2 →
      badStatus st2 = true →
      scrape_bdo net h2t sid today =
        (.error (.runtimeError ("Request failed: status " ++ toString st2)),
         [.tokenReq, .categoriesReq])) := by
  have hlk : (Json.obj kvs).lookup "bearer_token" = none := by
    unfold Json.hasKey at hmiss
    exact Option.not_isSome_iff_eq_none.mp (by simp [hmiss])
  have h1 : get_bdo_bearer_header net sid =
      (.ok ⟨"Bearer None"⟩, [.tokenReq]) := by
    unfold get_bdo_bearer_header fetch_json_post fetchJsonCore
    rw [htok]
    simp [hok, hjson, PyVal.pyGet, PyVal.pyGetD, Json.pyGetD, hlk, PyVal.fstr]
  refine ⟨h1, fun hcat hbad => ?_⟩
  unfold scrape_bdo
  rw [h1]
  unfold get_bdo_promo_items get_bdo_promo_categories fetch_json_get
    fetchJsonCore
  dsimp only
  rw [hcat]
  simp [hbad]

/-- Witness for the amended C5 at `c5Net`. -/
theorem C5_amended_bearer_none_proceeds_witness :
    get_bdo_bearer_header c5Net "s" = (.ok ⟨"Bearer None"⟩, [.tokenReq]) ∧
    scrape_bdo c5Net (fun s => s) "s" "d" =
      (.error (.runtimeError ("Request failed: status " ++ toString 401)),
       [.tokenReq, .categoriesReq]) := by
  have h := C5_amended_bearer_none_proceeds c5Net (fun s => s) "s" "d"
    200 { json? := some (.obj [("foo", .str "x")]) } [("foo", .str "x")]
    401 {} rfl (by decide) rfl (by decide)
  exact ⟨h.1, h.2 rfl (by decide)⟩

/-!  ### Claim C8 -/

/-- The catalog page JSON reporting `total_pages = 3` (with no items, so the
item lists stay empty). -/
def c8PageJson : Json :=
  .obj [("meta", .obj [("total_pages", .num 3)]), ("data", .arr [])]

/-- C8: for a category whose catalog response reports `total_pages = 3`, the
page loop of `get_bdo_promo_items` performs exactly 3 fetches, requesting
pages 1, 2, 3 in ascending order (first conjunct); the category's full
request trace is that ascending loop preceded by the initial page-1 probe
from which `total_pages` was read (second conjunct). -/
theorem C8_three_pages_ascending (net : Net) (auth uid : String) (cid : Int)
    (hcat : fetch_json_get net .categoriesReq (some auth) =
      .ok (.obj [("data", .arr [.obj [("id", .num cid)]])]))
    (hpage : ∀ p : Nat,
      fetch_json_get net (.itemsReq p 50 (toString cid)) (some auth) =
        .ok c8PageJson) :
    bdoFetchPages net auth (toString cid) (pageRange 3) [] =
      (.ok [], [.itemsReq 1 50 (toString cid), .itemsReq 2 50 (toString cid),
                .itemsReq 3 50 (toString cid)]) ∧
    get_bdo_promo_items net auth uid =
      (.ok ([], []),
       [.categoriesReq, .itemsReq 1 50 (toString cid),
        .itemsReq 1 50 (toString cid), .itemsReq 2 50 (toString cid),
        .itemsReq 3 50 (toString cid)]) := by
  have hloop : bdoFetchPages net auth (toString cid) (pageRange 3) [] =
      (.ok [], [.itemsReq 1 50 (toString cid), .itemsReq 2 50 (toString cid),
                .itemsReq 3 50 (toString cid)]) := by
    have h3 : pageRange 3 = [1, 2, 3] := by decide
    rw [h3]
    unfold bdoFetchPages
    rw [hpage 1]
    dsimp only
    unfold bdoFetchPages
    rw [hpage 2]
    dsimp only
    unfold bdoFetchPages
    rw [hpage 3]
    rfl
  refine ⟨hloop, ?_⟩
  have hcats : get_bdo_promo_categories net auth uid =
      (.ok ⟨uid, [some (.num cid)]⟩, [.categoriesReq]) := by
    unfold get_bdo_promo_categories
    rw [hcat]
    rfl
  have hcatloop : bdoCategoriesLoop net auth [some (.num cid)] [] =
      (.ok [], [.itemsReq 1 50 (toString cid), .itemsReq 1 50 (toString cid),
                .itemsReq 2 50 (toString cid), .itemsReq 3 50 (toString cid)]) := by
    unfold bdoCategoriesLoop
    dsimp only [PyVal.fstr, Json.fstr]
    rw [hpage 1]
    dsimp only
    rw [show bdoTotalPages c8PageJson = .ok 3 from rfl]
    dsimp only
    rw [hloop]
    rfl
  unfold get_bdo_promo_items
  rw [hcats]
  dsimp only
  rw [hcatloop]
  rfl

/-- One BDO category (id 7) whose item pages all answer with
`total_pages = 3` and no items. -/
def c8Net : Net := fun req _ =>
  match req with
  | .categoriesReq =>
      .resp 200 { json? := some (.obj [("data", .arr [.obj [("id", .num 7)]])]) }
  | .itemsReq _ 50 "7" => .resp 200 { json? := some c8PageJson }
  | _ => .connFail "x"

/-- Witness for C8 at `c8Net`: the category trace is the page-1 probe
followed by pages 1, 2, 3 in ascending order. -/
theorem C8_three_pages_ascending_witness :
    get_bdo_promo_items c8Net "a" "u" =
      (.ok ([], []),
       [.categoriesReq, .itemsReq 1 50 "7", .itemsReq 1 50 "7",
        .itemsReq 2 50 "7", .itemsReq 3 50 "7"]) :=
  (C8_three_pages_ascending c8Net "a" "u" 7 rfl (fun _ => rfl)).2

/-!  ### Claim C9 -/

/-- One raw accordion entry as the API may deliver it: `none` is a JSON
`null` entry; otherwise a dict with optional string `title`/`body` fields. -/
def mkAccordionJson : Option (Option String × Option String) → Json
  | none => .null
  | some (t, b) =>
    .obj ((match t with | some s => [("title", Json.str s)] | none => []) ++
          (match b with | some s => [("body", Json.str s)] | none => []))

/-- What one accordion contributes to the reward parser's `fields` list:
the `f"{title}\n{body}".strip()` block when title or flattened body is
non-empty, nothing otherwise (a `null` entry behaves as empty/empty). -/
def accContribution (h2t : String → String)
    (a : Option (Option String × Option String)) : Option PyVal :=
  let t := match a with | none => "" | some (x, _) => x.getD ""
  let b := h2t (match a with | none => "" | some (_, y) => y.getD "")
  if !strEmpty t || !strEmpty b then
    some (some (.str (pyStrip (t ++ "\n" ++ b))))
  else none

theorem readAccFields_cons (h2t : String → String) (slot : RewardAcc)
    (rest : List RewardAcc) :
    readAccFields h2t (slot :: rest) =
      match slot.body with
      | none => .ok []
      | some bodyV =>
        match h2tPy h2t bodyV with
        | .error e => .error e
        | .ok bodyTxt =>
          match readAccFields h2t rest with
          | .error e => .error e
          | .ok restFields =>
            .ok ((if pyTruthy (slot.title.getD pvEmpty) || !strEmpty bodyTxt
                  then [some (.str (pyStrip
                    ((slot.title.getD pvEmpty).fstr ++ "\n" ++ bodyTxt)))]
                  else []) ++ restFields) := rfl

theorem h2tPy_str (h2t : String → String) (s : String) :
    h2tPy h2t (some (.str s)) = .ok (h2t s) := by
  unfold h2tPy
  by_cases hs : s.data.isEmpty
  · have hs0 : s = "" := by
      cases s with
      | mk l =>
        simp only [List.isEmpty_iff] at hs
        simp [hs]
    subst hs0
    simp [pyTruthy]
  · simp [pyTruthy, hs]

/-- C9: the accordion machinery behaves as claimed, for accordion lists of
any length (0, 1, N) with or without `null` entries.  (1) Reading back the
flattened slots never raises and consumes exactly the whole flattened
sequence — i.e. the `while f"accordion_{idx}_body" in entry` loop stops
precisely at the first missing index, n+1 for an n-accordion record —
producing one contribution per accordion.  (2) The flattener substitutes the
empty string for both title and body of a `null` accordion entry.  (3) Such
a substituted entry contributes nothing to the content.  (4) In general the
reading loop stops at the first slot whose body key is missing, whatever
follows it. -/
theorem C9_accordion_loop (h2t : String → String) (hempty : h2t "" = "") :
    (∀ accs : List (Option (Option String × Option String)),
      readAccFields h2t
          (accs.map (fun a => bdoAccSlot (mkAccordionJson a).toPy)) =
        .ok (accs.filterMap (accContribution h2t))) ∧
    bdoAccSlot ((mkAccordionJson none).toPy) =
      ⟨some pvEmpty, some pvEmpty⟩ ∧
    accContribution h2t none = none ∧
    (∀ (slots : List RewardAcc) (titleVal : Option PyVal)
        (more : List RewardAcc),
      readAccFields h2t (slots ++ ⟨titleVal, none⟩ :: more) =
        readAccFields h2t slots) := by
  refine ⟨?_, rfl, ?_, ?_⟩
  · intro accs
    induction accs with
    | nil => rfl
    | cons a rest ih =>
      cases a with
      | none =>
        rw [List.map_cons,
          show bdoAccSlot ((mkAccordionJson none).toPy) =
            ⟨some pvEmpty, some pvEmpty⟩ from rfl,
          readAccFields_cons]
        dsimp only
        rw [show h2tPy h2t pvEmpty = .ok (h2t "") from rfl, ih]
        dsimp only
        rw [List.filterMap_cons]
        by_cases hb : (h2t "").data = []
        · simp [accContribution, pvEmpty, PyVal.fstr, Json.fstr, pyTruthy,
            strEmpty, hb]
        · simp [accContribution, pvEmpty, PyVal.fstr, Json.fstr, pyTruthy,
            strEmpty, hb]
      | some pair =>
        obtain ⟨t, b⟩ := pair
        have hslot : bdoAccSlot ((mkAccordionJson (some (t, b))).toPy) =
            ⟨some (some (.str (t.getD ""))), some (some (.str (b.getD "")))⟩ := by
          cases t <;> cases b <;> rfl
        rw [List.map_cons, hslot, readAccFields_cons]
        dsimp only
        rw [h2tPy_str, ih]
        dsimp only
        rw [List.filterMap_cons]
        by_cases hc : (!strEmpty (t.getD "") || !strEmpty (h2t (b.getD "")))
        · simp [accContribution, hc, PyVal.fstr, Json.fstr, pyTruthy, strEmpty]
          simp [strEmpty] at hc
          simp [hc]
        · simp [accContribution, hc, PyVal.fstr, Json.fstr, pyTruthy, strEmpty]
          simp [strEmpty] at hc
          simp [hc]
  · unfold accContribution
    rw [hempty]
    simp [strEmpty]
  · intro slots titleVal more
    induction slots with
    | nil => rfl
    | cons s ss ih =>
      rw [List.cons_append, readAccFields_cons, readAccFields_cons]
      cases hb : s.body with
      | none => rfl
      | some bv =>
        dsimp only
        cases h2tPy h2t bv with
        | error e => rfl
        | ok bt =>
          dsimp only
          rw [ih]

/-- A length-2 accordion sequence: one ordinary entry, one `null` entry. -/
def c9Accs : List (Option (Option String × Option String)) :=
  [some (some "T", some "B"), none]

/-- Witness for C9 with `h2t` the identity (which maps `""` to `""` as
BeautifulSoup does): the two-entry sequence with a `null` entry is consumed
in full, yielding exactly the one non-empty contribution, and the loop stops
at a missing body key. -/
theorem C9_accordion_loop_witness :
    (fun s : String => s) "" = "" ∧
    readAccFields (fun s => s)
        (c9Accs.map (fun a => bdoAccSlot (mkAccordionJson a).toPy)) =
      .ok [some (.str "T\nB")] ∧
    bdoAccSlot ((mkAccordionJson none).toPy) =
      ⟨some pvEmpty, some pvEmpty⟩ ∧
    readAccFields (fun s => s)
        ([⟨some pvEmpty, some pvEmpty⟩] ++
          (⟨some pvEmpty, none⟩ : RewardAcc) :: [⟨some pvEmpty, some pvEmpty⟩]) =
      readAccFields (fun s => s) [⟨some pvEmpty, some pvEmpty⟩] :=
  ⟨rfl,
   ((C9_accordion_loop (fun s => s) rfl).1 c9Accs).trans rfl,
   (C9_accordion_loop (fun s => s) rfl).2.1,
   (C9_accordion_loop (fun s => s) rfl).2.2.2 [⟨some pvEmpty, some pvEmpty⟩]
     (some pvEmpty) [⟨some pvEmpty, some pvEmpty⟩]⟩

/-!  ### Claim C4 -/

/-- One surviving URL per sitemap adapter: the EastWest page carries no
content anchor (extraction fails), the BPI page scrapes fine. -/
def c4Net : Net := fun req _ =>
  match req with
  | .urlReq "https://www.eastwestbanker.com/sitemap.xml" =>
      .resp 200 { sitemapLocs? := some ["https://www.eastwestbanker.com/promos/p1"] }
  | .urlReq "https://www.eastwestbanker.com/promos/p1" =>
      .resp 200 { text := c7Doc }
  | .urlReq "https://www.bpi.com.ph/sitemap.xml" =>
      .resp 200
        { sitemapLocs? :=
            some ["https://www.bpi.com.ph/personal/rewards-and-promotions/a"] }
  | .urlReq "https://www.bpi.com.ph/personal/rewards-and-promotions/a" =>
      .resp 200 { text := wBpiDoc }
  | _ => .connFail "x"

/-- Counterexample to C4 as stated.  At `c4Net`: the EastWest adapter has
exactly one surviving URL whose text extraction fails, and it emits NO
record for it (the claim says exactly one record with empty content) — the
record construction rejects the extractor's `[]` and the URL is skipped;
the BPI adapter has exactly one surviving URL which processes successfully,
and it emits TWO records for it (the claim says exactly one). -/
theorem C4_counterexample :
    ewSurviving ["https://www.eastwestbanker.com/promos/p1"] =
      ["https://www.eastwestbanker.com/promos/p1"] ∧
    get_ew_content (get_html_content c4Net
      "https://www.eastwestbanker.com/promos/p1") "s" = .emptyList ∧
    scrape_ew c4Net "s" "d" = .ok [] ∧
    bpiSurviving ["https://www.bpi.com.ph/personal/rewards-and-promotions/a"] =
      ["https://www.bpi.com.ph/personal/rewards-and-promotions/a"] ∧
    scrape_bpi c4Net "s" "d" =
      .ok [⟨"s", "bpi",
            "https://www.bpi.com.ph/personal/rewards-and-promotions/a",
            "bpi promo", "d"⟩,
           ⟨"s", "bpi",
            "https://www.bpi.com.ph/personal/rewards-and-promotions/a",
            "bpi promo", "d"⟩] :=
  ⟨rfl, rfl, rfl, rfl, rfl⟩

theorem ewLoop_filterMap (net : Net) (sid : String) (today : PyDate) :
    ∀ (urls : List String) (acc : List BankPromo),
      ewLoop net sid today urls acc =
        acc ++ urls.filterMap (fun u => (ewTryBody net sid today u).toOption) := by
  intro urls
  induction urls with
  | nil => intro acc; simp [ewLoop]
  | cons url rest ih =>
    intro acc
    rw [ewLoop_cons]
    cases htry : ewTryBody net sid today url with
    | ok promo => simp [ih, htry, Except.toOption]
    | error e => simp [ih, htry, Except.toOption]

/-- C4 amended.  For the EastWest adapter: the output is exactly one record
per surviving URL whose fetch-and-extract-and-validate pipeline succeeds, in
order (first conjunct); each such record carries that URL as `source_url`
(second conjunct); when text extraction fails for a URL, NO record is
emitted for it — `BankPromo` rejects the `[]` content and the `except`
handler skips the URL (third conjunct).  For the BPI adapter: a surviving
URL that processes successfully is appended TWICE by the duplicate-append
defect (fourth conjunct). -/
theorem C4_amended_one_record_per_success (net : Net) (sid : String)
    (today : PyDate) :
    (∀ urls,
      get_sitemap_urls net "https://www.eastwestbanker.com/sitemap.xml" =
        .ok urls →
      scrape_ew net sid today =
        .ok ((ewSurviving urls).filterMap
          (fun u => (ewTryBody net sid today u).toOption))) ∧
    (∀ u r, ewTryBody net sid today u = .ok r → r.promo_url = u) ∧
    (∀ u, get_ew_content (get_html_content net u) sid = .emptyList →
      (ewTryBody net sid today u).toOption = none) ∧
    (∀ u rest promoVar acc p, bpiTryBody net sid today u = .ok p →
      bpiLoop net sid today (u :: rest) promoVar acc =
        bpiLoop net sid today rest (some p) (acc ++ [p, p])) := by
  refine ⟨?_, ?_, ?_, ?_⟩
  · intro urls hs
    unfold scrape_ew
    rw [hs]
    dsimp only
    rw [ewLoop_filterMap]
    rfl
  · intro u r h
    unfold ewTryBody at h
    exact (mkBankPromo_ok_fields h).2.2.1
  · intro u hc
    unfold ewTryBody
    rw [hc]
    unfold mkBankPromo
    split <;> rfl
  · intro u rest promoVar acc p htry
    rw [bpiLoop_cons, htry]

/-- Witness for the amended C4, combining `c4Net` (EastWest URL whose
extraction fails: no record) and `wNet` (successful EastWest and BPI URLs:
one record with the right URL, resp. a double append). -/
theorem C4_amended_one_record_per_success_witness :
    scrape_ew c4Net "s" "d" = .ok [] ∧
    (⟨"sid", "eastwest", "https://www.eastwestbanker.com/promos/p",
       "ew promo", "d"⟩ : BankPromo).promo_url =
      "https://www.eastwestbanker.com/promos/p" ∧
    (ewTryBody c4Net "s" "d" "https://www.eastwestbanker.com/promos/p1").toOption
      = none ∧
    bpiLoop wNet "sid" "d"
        ["https://www.bpi.com.ph/personal/rewards-and-promotions/a"] none [] =
      bpiLoop wNet "sid" "d" [] (some ⟨"sid", "bpi",
        "https://www.bpi.com.ph/personal/rewards-and-promotions/a",
        "bpi promo", "d"⟩)
        ([] ++ [⟨"sid", "bpi",
          "https://www.bpi.com.ph/personal/rewards-and-promotions/a",
          "bpi promo", "d"⟩,
          ⟨"sid", "bpi",
          "https://www.bpi.com.ph/personal/rewards-and-promotions/a",
          "bpi promo", "d"⟩]) := by
  have h := C4_amended_one_record_per_success c4Net "s" "d"
  have hw := C4_amended_one_record_per_success wNet "sid" "d"
  refine ⟨(h.1 ["https://www.eastwestbanker.com/promos/p1"] rfl).trans rfl,
    hw.2.1 "https://www.eastwestbanker.com/promos/p" _ rfl, h.2.2.1 _ rfl,
    hw.2.2.2 "https://www.bpi.com.ph/personal/rewards-and-promotions/a"
      [] none [] _ rfl⟩

/-!  ### Claim C3 -/

/-- The content join exactly as the CLAIM words it: blank-line join of the
non-empty, whitespace-TRIMMED fragments (the trimmed text is what gets
joined).  This is the spec-side definition to compare against the code. -/
def specContentJoin (frags : List String) : String :=
  joinSep "\n\n" ((frags.map pyStrip).filter (fun s => !strEmpty s))

/-- The content join the code performs: fragments that are non-empty after
trimming survive, but they are joined UNtrimmed
(`"\n\n".join([part for part in fields if part.strip()])`). -/
def codeContentJoin (frags : List String) : String :=
  joinSep "\n\n" (frags.filter (fun s => !strEmpty (pyStrip s)))

theorem collectParts_strs (frags : List String) :
    collectParts (frags.map (fun s => some (Json.str s))) =
      .ok (frags.filter (fun s => !strEmpty (pyStrip s))) := by
  induction frags with
  | nil => rfl
  | cons s rest ih =>
    rw [List.map_cons]
    unfold collectParts
    rw [ih]
    dsimp only [pyStr]
    by_cases hs : strEmpty (pyStrip s) <;> simp [hs]

theorem joinParts_strs (frags : List String) :
    joinParts (frags.map (fun s => some (Json.str s))) =
      .ok (codeContentJoin frags) := by
  unfold joinParts codeContentJoin
  rw [collectParts_strs]

theorem isHttpUrl_bdoRewards (x : String) :
    isHttpUrl ("https://www.deals.bdo.com.ph/rewards/" ++ x) = true := rfl

/-- A campaign dict whose only surviving fragment keeps a leading space. -/
def eC3Campaign : CampaignEntry := { name := some (some (.str " x")) }

/-- A reward dict with `accordion_1_body` present and EMPTY. -/
def eC3A : RewardEntry :=
  { name := some (some (.str "n")),
    accs := [⟨some (some (.str "T")), some pvEmpty⟩] }

/-- The same reward dict with `accordion_1_body` ABSENT. -/
def eC3B : RewardEntry :=
  { name := some (some (.str "n")),
    accs := [⟨some (some (.str "T")), none⟩] }

/-- Counterexample to C3 as stated, on both conjuncts.  (i) The campaign
record whose `name` is `" x"` produces `promo_content = " x"` — the
surviving fragment is joined UNtrimmed — while the claim's blank-line join
of the whitespace-trimmed fragments is `"x"`.  (ii) The reward dicts `eC3A`
and `eC3B` differ only in the field `accordion_1_body` being the empty
string versus absent, yet produce different records: the present-but-empty
body keeps the reading loop alive so the `"T"` accordion title reaches the
content, while the absent body stops the loop before it. -/
theorem C3_counterexample :
    campaignFields (fun s => s) eC3Campaign =
      .ok ([" x", "", "", "", ""].map (fun s => some (Json.str s))) ∧
    parse_bdo_campaign_output (fun s => s) [eC3Campaign] "u" "d" =
      .ok [⟨"u", "bdo", "https://www.deals.bdo.com.ph/rewards/None",
            " x", "d"⟩] ∧
    specContentJoin [" x", "", "", "", ""] = "x" ∧
    (" x" : String) ≠ "x" ∧
    parse_bdo_reward_output (fun s => s) [eC3A] "u" "d" =
      .ok [⟨"u", "bdo", "https://www.deals.bdo.com.ph/rewards/None",
            "n\n\nT", "d"⟩] ∧
    parse_bdo_reward_output (fun s => s) [eC3B] "u" "d" =
      .ok [⟨"u", "bdo", "https://www.deals.bdo.com.ph/rewards/None",
            "n", "d"⟩] ∧
    (⟨"u", "bdo", "https://www.deals.bdo.com.ph/rewards/None", "n\n\nT", "d"⟩
      : BankPromo) ≠
      ⟨"u", "bdo", "https://www.deals.bdo.com.ph/rewards/None", "n", "d"⟩ :=
  ⟨rfl, rfl, rfl, by decide, rfl, rfl, by decide⟩

/-- C3 amended.  (1)/(2) For every campaign/reward record whose fragment
list evaluates to strings, `promo_content` is the blank-line join of exactly
those fragments that are non-empty after whitespace-trimming, taken in the
fixed field order but joined UNtrimmed.  (3)/(4) Records differing only in a
scalar field (campaign name/headline/sub-headline/body texts; reward
name/description) being the empty string versus absent produce identical
output.  (5) The same holds for an accordion TITLE key at any position.
The accordion BODY keys are the exception the counterexample forces: their
presence steers the reading loop, so `""` versus absent can change the
output. -/
theorem C3_amended_content_join :
    (∀ (h2t : String → String) (e : CampaignEntry) (uid : String)
        (today : PyDate) (frags : List String),
      campaignFields h2t e = .ok (frags.map (fun s => some (Json.str s))) →
      parse_bdo_campaign_output h2t [e] uid today =
        .ok [⟨uid, "bdo",
          "https://www.deals.bdo.com.ph/rewards/" ++ (e.id.getD none).fstr,
          codeContentJoin frags, today⟩]) ∧
    (∀ (h2t : String → String) (e : RewardEntry) (uid : String)
        (today : PyDate) (frags : List String),
      rewardFields h2t e = .ok (frags.map (fun s => some (Json.str s))) →
      parse_bdo_reward_output h2t [e] uid today =
        .ok [⟨uid, "bdo",
          "https://www.deals.bdo.com.ph/rewards/" ++ (e.id.getD none).fstr,
          codeContentJoin frags, today⟩]) ∧
    (∀ (h2t : String → String) (e : CampaignEntry) (uid : String)
        (today : PyDate),
      parse_bdo_campaign_output h2t [{e with name := some pvEmpty}] uid today =
        parse_bdo_campaign_output h2t [{e with name := none}] uid today ∧
      parse_bdo_campaign_output h2t [{e with headline := some pvEmpty}] uid today =
        parse_bdo_campaign_output h2t [{e with headline := none}] uid today ∧
      parse_bdo_campaign_output h2t [{e with sub_headline := some pvEmpty}] uid today =
        parse_bdo_campaign_output h2t [{e with sub_headline := none}] uid today ∧
      parse_bdo_campaign_output h2t [{e with body_text := some pvEmpty}] uid today =
        parse_bdo_campaign_output h2t [{e with body_text := none}] uid today ∧
      parse_bdo_campaign_output h2t
          [{e with enrolment_page_body_text := some pvEmpty}] uid today =
        parse_bdo_campaign_output h2t
          [{e with enrolment_page_body_text := none}] uid today) ∧
    (∀ (h2t : String → String) (e : RewardEntry) (uid : String)
        (today : PyDate),
      parse_bdo_reward_output h2t [{e with name := some pvEmpty}] uid today =
        parse_bdo_reward_output h2t [{e with name := none}] uid today ∧
      parse_bdo_reward_output h2t [{e with description := some pvEmpty}] uid today =
        parse_bdo_reward_output h2t [{e with description := none}] uid today) ∧
    (∀ (h2t : String → String) (pre : List RewardAcc) (bodyV : Option PyVal)
        (post : List RewardAcc),
      readAccFields h2t (pre ++ ⟨some pvEmpty, bodyV⟩ :: post) =
        readAccFields h2t (pre ++ ⟨none, bodyV⟩ :: post)) := by
  refine ⟨?_, ?_, ?_, ?_, ?_⟩
  · intro h2t e uid today frags hf
    rw [parse_campaign_cons, hf]
    dsimp only
    rw [joinParts_strs]
    dsimp only
    simp [mkBankPromo, isHttpUrl_bdoRewards, parse_bdo_campaign_output]
  · intro h2t e uid today frags hf
    rw [parse_reward_cons, hf]
    dsimp only
    rw [joinParts_strs]
    dsimp only
    simp [mkBankPromo, isHttpUrl_bdoRewards, parse_bdo_reward_output]
  · exact fun h2t e uid today => ⟨rfl, rfl, rfl, rfl, rfl⟩
  · exact fun h2t e uid today => ⟨rfl, rfl⟩
  · intro h2t pre bodyV post
    induction pre with
    | nil => rfl
    | cons s ss ih =>
      rw [List.cons_append, List.cons_append, readAccFields_cons,
        readAccFields_cons]
      cases hb : s.body with
      | none => rfl
      | some bv =>
        dsimp only
        cases h2tPy h2t bv with
        | error e => rfl
        | ok bt =>
          dsimp only
          rw [ih]

/-- Witness for the amended C3 at the concrete entries `eC3Campaign` /
`eC3A`. -/
theorem C3_amended_content_join_witness :
    parse_bdo_campaign_output (fun s => s) [eC3Campaign] "u" "d" =
      .ok [⟨"u", "bdo", "https://www.deals.bdo.com.ph/rewards/None",
            codeContentJoin [" x", "", "", "", ""], "d"⟩] ∧
    parse_bdo_reward_output (fun s => s) [eC3A] "u" "d" =
      .ok [⟨"u", "bdo", "https://www.deals.bdo.com.ph/rewards/None",
            codeContentJoin ["n", "", "T"], "d"⟩] ∧
    readAccFields (fun s => s)
        ([] ++ (⟨some pvEmpty, some pvEmpty⟩ : RewardAcc) :: []) =
      readAccFields (fun s => s)
        ([] ++ (⟨none, some pvEmpty⟩ : RewardAcc) :: []) :=
  ⟨(C3_amended_content_join.1 (fun s => s) eC3Campaign "u" "d"
      [" x", "", "", "", ""] rfl),
   (C3_amended_content_join.2.1 (fun s => s) eC3A "u" "d" ["n", "", "T"] rfl),
   (C3_amended_content_join.2.2.2.2 (fun s => s) [] (some pvEmpty) [])⟩
